import Mathlib

/-!
# ODBC scanner: statement lifecycle, column type mapping, in-memory exclusivity

A shallow embedding of `src/include/odbc.hpp` (environment, connection and
statement wrappers over the ODBC driver manager) and of the exclusivity guard
of `src/storage/odbc_catalog.cpp`.

Modelling conventions.

* Native handles are natural numbers; the null handle is `0`.
* Machine integers are `Nat` / `Int`; arithmetic that the C++ code performs in
  a fixed-width type is reduced modulo the width explicitly.
* A C++ member function that may throw becomes a function returning an
  `Outcome`: the result (`Except`), the object's fields after the call, and the
  log of native driver calls issued so far.  A throw keeps every field
  assignment and native call made before it.
* The ODBC driver is external code.  It is a parameter of every operation: a
  function from the calls made so far and the current call to the return code
  and the values stored through the call's output pointers.
-/

namespace OdbcScanner

/-! ## Constants of `sql.h` / `sqlext.h` / `sqltypes.h` (unixODBC, 64-bit) -/

def SQL_NULL_HENV : Nat := 0
def SQL_NULL_HDBC : Nat := 0
def SQL_NULL_HSTMT : Nat := 0

def SQL_HANDLE_ENV : Int := 1
def SQL_HANDLE_DBC : Int := 2
def SQL_HANDLE_STMT : Int := 3

def SQL_SUCCESS : Int := 0
def SQL_SUCCESS_WITH_INFO : Int := 1
def SQL_NO_DATA_FOUND : Int := 100
def SQL_ERROR : Int := -1
def SQL_INVALID_HANDLE : Int := -2

def SQL_ATTR_ODBC_VERSION : Int := 200
def SQL_OV_ODBC3 : Nat := 3
def SQL_DRIVER_NOPROMPT : Nat := 0
def SQL_ATTR_ROW_BIND_TYPE : Int := 5
def SQL_BIND_BY_COLUMN : Nat := 0
def SQL_ATTR_ROWS_FETCHED_PTR : Int := 26
def SQL_ATTR_ROW_ARRAY_SIZE : Int := 27
def SQL_FETCH_NEXT : Int := 1

def SQL_CHAR : Int := 1
def SQL_NUMERIC : Int := 2
def SQL_DECIMAL : Int := 3
def SQL_INTEGER : Int := 4
def SQL_SMALLINT : Int := 5
def SQL_FLOAT : Int := 6
def SQL_REAL : Int := 7
def SQL_DOUBLE : Int := 8
def SQL_VARCHAR : Int := 12
def SQL_TYPE_DATE : Int := 91
def SQL_TYPE_TIME : Int := 92
def SQL_TYPE_TIMESTAMP : Int := 93
def SQL_LONGVARCHAR : Int := -1
def SQL_BINARY : Int := -2
def SQL_VARBINARY : Int := -3
def SQL_LONGVARBINARY : Int := -4
def SQL_BIGINT : Int := -5
def SQL_TINYINT : Int := -6
def SQL_BIT : Int := -7

def SQL_SIGNED_OFFSET : Int := -20
def SQL_C_CHAR : Int := SQL_CHAR
def SQL_C_LONG : Int := SQL_INTEGER
def SQL_C_SHORT : Int := SQL_SMALLINT
def SQL_C_FLOAT : Int := SQL_REAL
def SQL_C_DOUBLE : Int := SQL_DOUBLE
def SQL_C_SBIGINT : Int := SQL_BIGINT + SQL_SIGNED_OFFSET
def SQL_C_BINARY : Int := SQL_BINARY
def SQL_C_TYPE_DATE : Int := SQL_TYPE_DATE
def SQL_C_TYPE_TIME : Int := SQL_TYPE_TIME
def SQL_C_TYPE_TIMESTAMP : Int := SQL_TYPE_TIMESTAMP

/-- Width in bits of `SQLULEN` (an `unsigned long` on the 64-bit targets). -/
def SQLULEN_BITS : Nat := 64

/-- Addition of two `SQLULEN` values: unsigned, wrapping at `2 ^ 64`. -/
def SQLULEN.add (a b : Nat) : Nat := (a + b) % 2 ^ SQLULEN_BITS

/-- Conversion of an integer to `SQLSMALLINT` (16-bit, two's complement), as
done by the cast `(SQLSMALLINT)x`. -/
def toSQLSMALLINT (x : Int) : Int := (x + 2 ^ 15) % 2 ^ 16 - 2 ^ 15

/-- Conversion of an integer to `SQLUSMALLINT` (16-bit, unsigned). -/
def toSQLUSMALLINT (x : Int) : Nat := (x % 2 ^ 16).toNat

def sizeof_SQLCHAR : Nat := 1
def sizeof_SQLSMALLINT : Nat := 2
def sizeof_SQLINTEGER : Nat := 4
def sizeof_SQLBIGINT : Nat := 8
def sizeof_double : Nat := 8
def sizeof_float : Nat := 4

/-- The macro `SQL_SUCCEEDED(rc)`, `(((rc)&(~1))==0)`: the return code with
its lowest bit cleared is zero.  Clearing the lowest bit of a two's-complement
integer subtracts its remainder modulo two (see `SQL_SUCCEEDED_eq_mask`). -/
def SQL_SUCCEEDED (rc : Int) : Bool := rc - rc % 2 == 0

/-- The test `return_code != SQL_SUCCESS && return_code != SQL_SUCCESS_WITH_INFO`
that most wrappers use in place of `SQL_SUCCEEDED`. -/
def notSuccess (return_code : Int) : Bool :=
  return_code != SQL_SUCCESS && return_code != SQL_SUCCESS_WITH_INFO

/-! ## Errors -/

/-- The exceptions the code raises. -/
inductive OdbcError where
  /-- A plain `throw Exception(msg)`. -/
  | exception (msg : String)
  /-- Modelled from the spec: ThrowExceptionWithDiagnostics (declared in the
  absent `exception.hpp`) always raises; the error carries the name of the
  failing operation, the handle type, the handle and the native return code. -/
  | diagnostics (op : String) (handleType : Int) (handle : Nat) (return_code : Int)
  /-- A `throw InternalException(msg)`. -/
  | internalException (msg : String)
  /-- A `throw TransactionException(msg)`. -/
  | transactionException (msg : String)
  /-- The `std::length_error` of `std::vector`'s sizing constructor. -/
  | lengthError
  deriving DecidableEq, Repr

deriving instance DecidableEq for Except

/-- Whether a result is a normal return. -/
def succeeded {α : Type} : Except OdbcError α → Bool
  | .ok _ => true
  | .error _ => false

/-! ## Column description and the column type mapper -/

/-- The struct `OdbcColumnDescription`. -/
structure OdbcColumnDescription where
  name : String
  name_length : Int
  sql_data_type : Int
  c_data_type : Int
  size : Nat
  length : Nat
  decimal_digits : Int
  nullable : Int
  deriving DecidableEq, Repr

/-- A value-initialised `OdbcColumnDescription` (every member zero), the
element `std::vector<OdbcColumnDescription>(n)` is filled with. -/
def OdbcColumnDescription.zero : OdbcColumnDescription :=
  { name := "", name_length := 0, sql_data_type := 0, c_data_type := 0,
    size := 0, length := 0, decimal_digits := 0, nullable := 0 }

/-- The static member `OdbcStatement::SqlDataTypeToCDataType`: the `switch`
over `col_desc->sql_data_type`, read top to bottom. -/
def SqlDataTypeToCDataType (col_desc : OdbcColumnDescription) :
    Except OdbcError OdbcColumnDescription :=
  let t := col_desc.sql_data_type
  if t = SQL_SMALLINT then
    .ok { col_desc with c_data_type := SQL_C_SHORT, length := sizeof_SQLSMALLINT }
  else if t = SQL_INTEGER then
    .ok { col_desc with c_data_type := SQL_C_LONG, length := sizeof_SQLINTEGER }
  else if t = SQL_BIGINT then
    .ok { col_desc with c_data_type := SQL_C_SBIGINT, length := sizeof_SQLBIGINT }
  else if t = SQL_DECIMAL ∨ t = SQL_NUMERIC then
    .ok { col_desc with c_data_type := SQL_C_CHAR,
                        length := SQLULEN.add col_desc.size sizeof_SQLCHAR }
  else if t = SQL_DOUBLE ∨ t = SQL_FLOAT then
    .ok { col_desc with c_data_type := SQL_C_DOUBLE, length := sizeof_double }
  else if t = SQL_REAL then
    .ok { col_desc with c_data_type := SQL_C_FLOAT, length := sizeof_float }
  else if t = SQL_CHAR ∨ t = SQL_VARCHAR ∨ t = SQL_LONGVARCHAR then
    .ok { col_desc with c_data_type := SQL_C_CHAR,
                        length := SQLULEN.add col_desc.size sizeof_SQLCHAR }
  else if t = SQL_BINARY ∨ t = SQL_VARBINARY ∨ t = SQL_LONGVARBINARY then
    .ok { col_desc with c_data_type := SQL_C_BINARY,
                        length := SQLULEN.add col_desc.size sizeof_SQLCHAR }
  else if t = SQL_TYPE_DATE then
    .ok { col_desc with c_data_type := SQL_C_TYPE_DATE,
                        length := SQLULEN.add col_desc.size sizeof_SQLCHAR }
  else if t = SQL_TYPE_TIME then
    .ok { col_desc with c_data_type := SQL_C_TYPE_TIME,
                        length := SQLULEN.add col_desc.size sizeof_SQLCHAR }
  else if t = SQL_TYPE_TIMESTAMP then
    .ok { col_desc with c_data_type := SQL_C_TYPE_TIMESTAMP,
                        length := SQLULEN.add col_desc.size sizeof_SQLCHAR }
  else
    .error (.exception ("SqlDataTypeToCDataType() unknown sql_data_type=" ++ toString t))

/-- The in-memory tags of the specification's mapping table (section 4.4). -/
inductive MemTag where
  | short | long | bigInt | double | float
  | characterBuffer | rawBytes | dateRecord | timeRecord | timestampRecord
  deriving DecidableEq, Repr

/-- The `SQL_C_*` code that stands for a tag of the mapping table. -/
def MemTag.code : MemTag → Int
  | .short => SQL_C_SHORT
  | .long => SQL_C_LONG
  | .bigInt => SQL_C_SBIGINT
  | .double => SQL_C_DOUBLE
  | .float => SQL_C_FLOAT
  | .characterBuffer => SQL_C_CHAR
  | .rawBytes => SQL_C_BINARY
  | .dateRecord => SQL_C_TYPE_DATE
  | .timeRecord => SQL_C_TYPE_TIME
  | .timestampRecord => SQL_C_TYPE_TIMESTAMP

/-- The specification's mapping table (section 4.4), row by row, as a partial
function of the SQL type code and the declared size; `plus` is the addition
used for "declared size + 1". -/
def MapTypeWith (plus : Nat → Nat → Nat) (sqlType : Int) (declaredSize : Nat) :
    Option (MemTag × Nat) :=
  if sqlType = SQL_SMALLINT then some (.short, 2)
  else if sqlType = SQL_INTEGER then some (.long, 4)
  else if sqlType = SQL_BIGINT then some (.bigInt, 8)
  else if sqlType = SQL_DECIMAL ∨ sqlType = SQL_NUMERIC then
    some (.characterBuffer, plus declaredSize 1)
  else if sqlType = SQL_DOUBLE ∨ sqlType = SQL_FLOAT then some (.double, 8)
  else if sqlType = SQL_REAL then some (.float, 4)
  else if sqlType = SQL_CHAR ∨ sqlType = SQL_VARCHAR ∨ sqlType = SQL_LONGVARCHAR then
    some (.characterBuffer, plus declaredSize 1)
  else if sqlType = SQL_BINARY ∨ sqlType = SQL_VARBINARY ∨ sqlType = SQL_LONGVARBINARY then
    some (.rawBytes, plus declaredSize 1)
  else if sqlType = SQL_TYPE_DATE then some (.dateRecord, plus declaredSize 1)
  else if sqlType = SQL_TYPE_TIME then some (.timeRecord, plus declaredSize 1)
  else if sqlType = SQL_TYPE_TIMESTAMP then some (.timestampRecord, plus declaredSize 1)
  else none

/-- The mapping table as the specification writes it: "declared size + 1" is
the sum of the two numbers. -/
def MapType (sqlType : Int) (declaredSize : Nat) : Option (MemTag × Nat) :=
  MapTypeWith (fun a b => a + b) sqlType declaredSize

/-- The mapping table with "declared size + 1" computed in `SQLULEN`. -/
def MapTypeULEN (sqlType : Int) (declaredSize : Nat) : Option (MemTag × Nat) :=
  MapTypeWith SQLULEN.add sqlType declaredSize

/-- What the mapping table prescribes for a column description: the
description with tag and length filled in, or the unsupported-type error that
cites the code. -/
def tableOutcome (table : Int → Nat → Option (MemTag × Nat))
    (col_desc : OdbcColumnDescription) : Except OdbcError OdbcColumnDescription :=
  match table col_desc.sql_data_type col_desc.size with
  | some (tag, len) => .ok { col_desc with c_data_type := tag.code, length := len }
  | none =>
    .error (.exception ("SqlDataTypeToCDataType() unknown sql_data_type="
      ++ toString col_desc.sql_data_type))

/-! ## The driver boundary -/

/-- The `SQLPOINTER` argument of `SQLSetStmtAttr`: an integer passed by value,
or the address of the local `rows_fetched` of the running `Fetch`. -/
inductive AttrValue where
  | value (v : Nat)
  | rowsFetchedPtr
  deriving DecidableEq, Repr

/-- A call into the driver manager, with the arguments the wrappers pass.
Output pointers are not arguments here: what the driver stores through them is
part of its `Response`. -/
inductive NativeCall where
  | SQLAllocHandle (handleType : Int) (inputHandle : Nat)
  | SQLFreeHandle (handleType : Int) (handle : Nat)
  | SQLSetEnvAttr (handle : Nat) (attr : Int) (value : Nat)
  | SQLDriverConnect (handle : Nat) (connection_string : String) (conn_str_in_len : Int)
      (bufferLength : Int) (driverCompletion : Nat)
  | SQLDisconnect (handle : Nat)
  | SQLPrepare (handle : Nat) (sql_statement : String) (sql_len : Int)
  | SQLSetStmtAttr (handle : Nat) (attr : Int) (value : AttrValue)
  | SQLBindCol (handle : Nat) (column_number : Nat) (c_data_type : Int) (buffer : Nat)
      (column_buffer_length : Nat) (strlen_or_ind : Nat)
  | SQLNumResultCols (handle : Nat)
  | SQLDescribeCol (handle : Nat) (columnNumber : Nat) (bufferLength : Nat)
  | SQLExecute (handle : Nat)
  | SQLFetchScroll (handle : Nat) (fetchOrientation : Int) (fetchOffset : Int)
  deriving DecidableEq, Repr

/-- The log of native calls, oldest first. -/
abbrev Trace := List NativeCall

/-- What `SQLDescribeCol` stores through its output pointers: the members of
the column description other than `c_data_type` and `length`. -/
structure ColumnReport where
  /-- The bytes stored into the 32-byte buffer `name`, up to the terminator. -/
  name : String
  name_length : Int
  sql_data_type : Int
  size : Nat
  decimal_digits : Int
  nullable : Int
  deriving DecidableEq, Repr

/-- The report of a driver that stores nothing. -/
def ColumnReport.zero : ColumnReport :=
  { name := "", name_length := 0, sql_data_type := 0, size := 0,
    decimal_digits := 0, nullable := 0 }

/-- What a native call gives back: the return code and the content, when the
call returns, of the objects its output pointers designate.  Every such object
holds zero when the wrapper makes the call (a null handle, `num_result_cols = 0`,
`rows_fetched = 0`, a value-initialised column description), so a driver that
stores nothing through a pointer is the driver whose response has zero there. -/
structure Response where
  rc : Int
  /-- `*OutputHandlePtr` of `SQLAllocHandle`. -/
  handleOut : Nat := 0
  /-- `*ColumnCountPtr` of `SQLNumResultCols`. -/
  columnCount : Int := 0
  /-- The object registered as `SQL_ATTR_ROWS_FETCHED_PTR`, after `SQLFetchScroll`. -/
  rowsFetched : Int := 0
  /-- The output of `SQLDescribeCol`. -/
  column : ColumnReport := ColumnReport.zero
  deriving DecidableEq, Repr

/-- An ODBC driver (with its driver manager): any function from the calls
made so far and the call being made to a response. -/
abbrev Driver := Trace → NativeCall → Response

/-- The result of running a member function on an object: what it returned or
threw, the object's fields afterwards, and the log of native calls. -/
structure Outcome (σ α : Type) where
  result : Except OdbcError α
  state : σ
  trace : Trace
  deriving DecidableEq

/-- The ODBC contract on the rows-fetched buffer at the end of data: when a
fetch returns `SQL_NO_DATA`, the object registered as
`SQL_ATTR_ROWS_FETCHED_PTR` holds zero afterwards (the driver stores zero, or
stores nothing and leaves the zero `Fetch` put there). -/
def Driver.zeroOnNoData (d : Driver) : Prop :=
  ∀ (t : Trace) (handle : Nat) (fetchOrientation fetchOffset : Int),
    (d t (.SQLFetchScroll handle fetchOrientation fetchOffset)).rc = SQL_NO_DATA_FOUND →
    (d t (.SQLFetchScroll handle fetchOrientation fetchOffset)).rowsFetched = 0

/-! ## `OdbcEnvironment` -/

/-- The struct `OdbcEnvironment`. -/
structure OdbcEnvironment where
  handle : Nat
  deriving DecidableEq, Repr

/-- The constructor `OdbcEnvironment()`. -/
def OdbcEnvironment.new : OdbcEnvironment := { handle := SQL_NULL_HENV }

/-- The member `OdbcEnvironment::FreeHandle`. -/
def OdbcEnvironment.FreeHandle (d : Driver) (e : OdbcEnvironment) (t : Trace) :
    Outcome OdbcEnvironment Unit :=
  if e.handle ≠ SQL_NULL_HENV then
    let c := NativeCall.SQLFreeHandle SQL_HANDLE_ENV e.handle
    let return_code := (d t c).rc
    if !SQL_SUCCEEDED return_code then
      ⟨.error (.diagnostics "OdbcEnvironment->Init() SQLFreeHandle" SQL_HANDLE_ENV e.handle
        return_code), e, t ++ [c]⟩
    else ⟨.ok (), e, t ++ [c]⟩
  else ⟨.ok (), e, t⟩

/-- The member `OdbcEnvironment::Init`. -/
def OdbcEnvironment.Init (d : Driver) (e : OdbcEnvironment) (t : Trace) :
    Outcome OdbcEnvironment Unit :=
  if e.handle ≠ SQL_NULL_HENV then
    ⟨.error (.exception "OdbcEnvironment->Init() handle is not null"), e, t⟩
  else
    let c1 := NativeCall.SQLAllocHandle SQL_HANDLE_ENV SQL_NULL_HENV
    let r1 := d t c1
    let e1 : OdbcEnvironment := { e with handle := r1.handleOut }
    if notSuccess r1.rc then
      ⟨.error (.diagnostics "OdbcEnvironment->Init() SQLAllocHandle" SQL_HANDLE_ENV e1.handle
        r1.rc), e1, t ++ [c1]⟩
    else
      let c2 := NativeCall.SQLSetEnvAttr e1.handle SQL_ATTR_ODBC_VERSION SQL_OV_ODBC3
      let return_code := (d (t ++ [c1]) c2).rc
      if !SQL_SUCCEEDED return_code then
        ⟨.error (.diagnostics "OdbcEnvironment->Init() SQLSetEnvAttr" SQL_HANDLE_ENV e1.handle
          return_code), e1, t ++ [c1] ++ [c2]⟩
      else ⟨.ok (), e1, t ++ [c1] ++ [c2]⟩

/-- The member `OdbcEnvironment::Handle`. -/
def OdbcEnvironment.Handle (e : OdbcEnvironment) : Nat := e.handle

/-! ## `OdbcConnection` -/

def MAX_CONN_STR_OUT : Int := 1024

/-- The struct `OdbcConnection`. -/
structure OdbcConnection where
  handle : Nat
  dialed : Bool
  deriving DecidableEq, Repr

/-- The constructor `OdbcConnection()`. -/
def OdbcConnection.new : OdbcConnection := { handle := SQL_NULL_HDBC, dialed := false }

/-- The member `OdbcConnection::FreeHandle`. -/
def OdbcConnection.FreeHandle (d : Driver) (conn : OdbcConnection) (t : Trace) :
    Outcome OdbcConnection Unit :=
  if conn.handle ≠ SQL_NULL_HDBC then
    let c := NativeCall.SQLFreeHandle SQL_HANDLE_DBC conn.handle
    let return_code := (d t c).rc
    if !SQL_SUCCEEDED return_code then
      ⟨.error (.diagnostics "OdbcConnection->FreeHandle() SQLFreeHandle" SQL_HANDLE_DBC
        conn.handle return_code), conn, t ++ [c]⟩
    else ⟨.ok (), conn, t ++ [c]⟩
  else ⟨.ok (), conn, t⟩

/-- The member `OdbcConnection::Init`. -/
def OdbcConnection.Init (d : Driver) (env : OdbcEnvironment) (conn : OdbcConnection)
    (t : Trace) : Outcome OdbcConnection Unit :=
  if conn.handle ≠ SQL_NULL_HDBC then
    ⟨.error (.exception "OdbcConnection->Init(): connection handle is not null"), conn, t⟩
  else
    let c := NativeCall.SQLAllocHandle SQL_HANDLE_DBC env.Handle
    let r := d t c
    let conn1 : OdbcConnection := { conn with handle := r.handleOut }
    if notSuccess r.rc then
      ⟨.error (.diagnostics "OdbcConnection->Init() SQLAllocHandle" SQL_HANDLE_DBC conn1.handle
        r.rc), conn1, t ++ [c]⟩
    else ⟨.ok (), conn1, t ++ [c]⟩

/-- The member `OdbcConnection::Dial`. -/
def OdbcConnection.Dial (d : Driver) (connection_string : String) (conn : OdbcConnection)
    (t : Trace) : Outcome OdbcConnection Unit :=
  let conn_str_in_len := toSQLSMALLINT connection_string.utf8ByteSize
  let c := NativeCall.SQLDriverConnect conn.handle connection_string conn_str_in_len
    (toSQLSMALLINT MAX_CONN_STR_OUT) SQL_DRIVER_NOPROMPT
  let return_code := (d t c).rc
  if notSuccess return_code then
    ⟨.error (.diagnostics "OdbcConnection->Dial() SQLDriverConnect" SQL_HANDLE_DBC conn.handle
      return_code), conn, t ++ [c]⟩
  else ⟨.ok (), { conn with dialed := true }, t ++ [c]⟩

/-- The member `OdbcConnection::Disconnect`. -/
def OdbcConnection.Disconnect (d : Driver) (conn : OdbcConnection) (t : Trace) :
    Outcome OdbcConnection Unit :=
  if !conn.dialed then ⟨.ok (), conn, t⟩
  else
    let c := NativeCall.SQLDisconnect conn.handle
    let return_code := (d t c).rc
    if notSuccess return_code then
      ⟨.error (.diagnostics "OdbcConnection->Disconnect() SQLDisconnect" SQL_HANDLE_DBC
        conn.handle return_code), conn, t ++ [c]⟩
    else ⟨.ok (), { conn with dialed := false }, t ++ [c]⟩

/-- The destructor `~OdbcConnection()`: `Disconnect(); FreeHandle();`.  An
exception leaving `Disconnect` leaves the destructor body at that point (in
C++ it then leaves the destructor, or ends the program when the destructor is
`noexcept`); in either case no later statement of the body runs. -/
def OdbcConnection.destroy (d : Driver) (conn : OdbcConnection) (t : Trace) :
    Outcome OdbcConnection Unit :=
  let o := conn.Disconnect d t
  match o.result with
  | .error e => ⟨.error e, o.state, o.trace⟩
  | .ok _ => o.state.FreeHandle d o.trace

/-- The member `OdbcConnection::Handle`. -/
def OdbcConnection.Handle (conn : OdbcConnection) : Nat := conn.handle

/-! ## `OdbcStatement` -/

/-- The struct `OdbcStatementOptions`. -/
structure OdbcStatementOptions where
  row_array_size : Nat
  deriving DecidableEq, Repr

/-- The struct `OdbcStatement`.  The member `conn` is a shared pointer to the
connection; the statement only reads the connection's handle. -/
structure OdbcStatement where
  conn : OdbcConnection
  handle : Nat
  prepared : Bool
  executing : Bool
  deriving DecidableEq, Repr

/-- The constructor `OdbcStatement(conn)`. -/
def OdbcStatement.new (conn : OdbcConnection) : OdbcStatement :=
  { conn := conn, handle := SQL_NULL_HSTMT, prepared := false, executing := false }

/-- The member `OdbcStatement::FreeHandle`. -/
def OdbcStatement.FreeHandle (d : Driver) (s : OdbcStatement) (t : Trace) :
    Outcome OdbcStatement Unit :=
  if s.handle ≠ SQL_NULL_HSTMT then
    let c := NativeCall.SQLFreeHandle SQL_HANDLE_STMT s.handle
    let return_code := (d t c).rc
    if !SQL_SUCCEEDED return_code then
      ⟨.error (.diagnostics "OdbcStatement->FreeHandle() SQLFreeHandle" SQL_HANDLE_STMT
        s.handle return_code), s, t ++ [c]⟩
    else ⟨.ok (), s, t ++ [c]⟩
  else ⟨.ok (), s, t⟩

/-- The destructor `~OdbcStatement()`. -/
def OdbcStatement.destroy (d : Driver) (s : OdbcStatement) (t : Trace) :
    Outcome OdbcStatement Unit :=
  OdbcStatement.FreeHandle d { s with prepared := false, executing := false } t

/-- The member `OdbcStatement::Init`. -/
def OdbcStatement.Init (d : Driver) (s : OdbcStatement) (t : Trace) :
    Outcome OdbcStatement Unit :=
  if s.handle ≠ SQL_NULL_HSTMT then
    ⟨.error (.exception ("OdbcStatement->Init() handle has already been initialized. To "
      ++ "execute a different statement instantiate a new statement")), s, t⟩
  else
    let c := NativeCall.SQLAllocHandle SQL_HANDLE_STMT s.conn.Handle
    let r := d t c
    let s1 : OdbcStatement := { s with handle := r.handleOut }
    if notSuccess r.rc then
      ⟨.error (.diagnostics "OdbcStatement->Init() SQLAllocHandle" SQL_HANDLE_STMT s1.handle
        r.rc), s1, t ++ [c]⟩
    else ⟨.ok (), s1, t ++ [c]⟩

/-- The member `OdbcStatement::Prepare`. -/
def OdbcStatement.Prepare (d : Driver) (sql_statement : String) (s : OdbcStatement)
    (t : Trace) : Outcome OdbcStatement Unit :=
  if s.handle = SQL_NULL_HSTMT then
    ⟨.error (.exception ("OdbcStatement->Prepare() handle has not been allocated. Call "
      ++ "OdbcStatement#Init() before OdbcStatement#Prepare()")), s, t⟩
  else
    let sql_len := toSQLSMALLINT sql_statement.utf8ByteSize
    let c := NativeCall.SQLPrepare s.handle sql_statement sql_len
    let return_code := (d t c).rc
    if notSuccess return_code then
      ⟨.error (.diagnostics "OdbcStatement->Prepare() SQLPrepare" SQL_HANDLE_STMT s.handle
        return_code), s, t ++ [c]⟩
    else ⟨.ok (), { s with prepared := true }, t ++ [c]⟩

/-- The member `OdbcStatement::SetAttribute`. -/
def OdbcStatement.SetAttribute (d : Driver) (attr : Int) (value : AttrValue)
    (s : OdbcStatement) (t : Trace) : Outcome OdbcStatement Unit :=
  if s.handle = SQL_NULL_HSTMT then
    ⟨.error (.exception ("OdbcStatement->SetAttribute() handle has not been allocated. Call "
      ++ "OdbcStatement#Init() before OdbcStatement#SetAttribute()")), s, t⟩
  else
    let c := NativeCall.SQLSetStmtAttr s.handle attr value
    let return_code := (d t c).rc
    if notSuccess return_code then
      ⟨.error (.diagnostics "OdbcStatement->SetAttribute() SQLSetStmtAttr" SQL_HANDLE_STMT
        s.handle return_code), s, t ++ [c]⟩
    else ⟨.ok (), s, t ++ [c]⟩

/-- The member `OdbcStatement::BindColumn`; `buffer` and `strlen_or_ind` are
the addresses of the caller's buffers. -/
def OdbcStatement.BindColumn (d : Driver) (column_number : Nat) (c_data_type : Int)
    (buffer : Nat) (column_buffer_length : Nat) (strlen_or_ind : Nat)
    (s : OdbcStatement) (t : Trace) : Outcome OdbcStatement Unit :=
  if s.handle = SQL_NULL_HSTMT then
    ⟨.error (.exception ("OdbcStatement->BindColumn() handle has not been allocated. Call "
      ++ "OdbcStatement#Init() before OdbcStatement#BindColumn()")), s, t⟩
  else
    let c := NativeCall.SQLBindCol s.handle column_number c_data_type buffer
      column_buffer_length strlen_or_ind
    let return_code := (d t c).rc
    if !SQL_SUCCEEDED return_code then
      ⟨.error (.diagnostics "OdbcStatement->BindCol() SQLBindCol" SQL_HANDLE_STMT s.handle
        return_code), s, t ++ [c]⟩
    else ⟨.ok (), s, t ++ [c]⟩

/-- The member `OdbcStatement::NumResultCols`.  The result is the
`SQLSMALLINT num_result_cols` the driver stored into. -/
def OdbcStatement.NumResultCols (d : Driver) (s : OdbcStatement) (t : Trace) :
    Outcome OdbcStatement Int :=
  if s.handle = SQL_NULL_HSTMT then
    ⟨.error (.exception ("OdbcStatement->NumResultCols() handle has not been allocated. Call "
      ++ "OdbcStatement#Init() before OdbcStatement#Prepare()")), s, t⟩
  else if !s.prepared then
    ⟨.error (.exception ("OdbcStatement->NumResultCols() statement has "
      ++ "not been prepared. Call OdbcStatement#Prepare() before "
      ++ "OdbcStatement#NumResultCols()")), s, t⟩
  else
    let c := NativeCall.SQLNumResultCols s.handle
    let r := d t c
    let num_result_cols := toSQLSMALLINT r.columnCount
    if !SQL_SUCCEEDED r.rc then
      ⟨.error (.diagnostics "OdbcStatement->NumResultCols() SQLNumResultCols" SQL_HANDLE_STMT
        s.handle r.rc), s, t ++ [c]⟩
    else ⟨.ok num_result_cols, s, t ++ [c]⟩

/-- The size of the member `name` of a column description, `sizeof(col_desc->name)`. -/
def sizeof_name : Nat := 32

/-- The column description after `SQLDescribeCol` stored its report into it. -/
def OdbcColumnDescription.store (col_desc : OdbcColumnDescription) (r : ColumnReport) :
    OdbcColumnDescription :=
  { col_desc with name := r.name, name_length := r.name_length,
                  sql_data_type := r.sql_data_type, size := r.size,
                  decimal_digits := r.decimal_digits, nullable := r.nullable }

/-- The `for` loop of `OdbcStatement::DescribeColumns`, from the index `i` on,
with `remaining = num_result_cols - i` iterations to go. -/
def OdbcStatement.describeLoop (d : Driver) (handle : Nat) :
    (remaining : Nat) → (i : Nat) → List OdbcColumnDescription → Trace →
      Except OdbcError (List OdbcColumnDescription) × Trace
  | 0, _, column_descriptions, t => (.ok column_descriptions, t)
  | remaining + 1, i, column_descriptions, t =>
    let c := NativeCall.SQLDescribeCol handle (toSQLUSMALLINT (i + 1)) sizeof_name
    let r := d t c
    let col_desc := (column_descriptions.getD i OdbcColumnDescription.zero).store r.column
    if !SQL_SUCCEEDED r.rc then
      (.error (.diagnostics "OdbcStatement->DescribeColumns() SQLDescribeCol" SQL_HANDLE_STMT
        handle r.rc), t ++ [c])
    else
      match SqlDataTypeToCDataType col_desc with
      | .error e => (.error e, t ++ [c])
      | .ok col_desc1 =>
        OdbcStatement.describeLoop d handle remaining (i + 1)
          (column_descriptions.set i col_desc1) (t ++ [c])

/-- The member `OdbcStatement::DescribeColumns`.  A negative column count
makes the vector's sizing constructor throw. -/
def OdbcStatement.DescribeColumns (d : Driver) (s : OdbcStatement) (t : Trace) :
    Outcome OdbcStatement (List OdbcColumnDescription) :=
  let o := s.NumResultCols d t
  match o.result with
  | .error e => ⟨.error e, o.state, o.trace⟩
  | .ok num_result_cols =>
    if num_result_cols < 0 then ⟨.error .lengthError, o.state, o.trace⟩
    else
      let column_descriptions :=
        List.replicate num_result_cols.toNat OdbcColumnDescription.zero
      let loop := OdbcStatement.describeLoop d o.state.handle num_result_cols.toNat 0
        column_descriptions o.trace
      ⟨loop.1, o.state, loop.2⟩

/-- The member `OdbcStatement::Execute`. -/
def OdbcStatement.Execute (d : Driver) (opts : OdbcStatementOptions) (s : OdbcStatement)
    (t : Trace) : Outcome OdbcStatement Unit :=
  if s.handle = SQL_NULL_HSTMT then
    ⟨.error (.exception "OdbcStatement->Execute() handle is null"), s, t⟩
  else if !s.prepared then
    ⟨.error (.exception "OdbcStatement->Execute() statement is not prepared"), s, t⟩
  else if s.executing then
    ⟨.error (.exception "OdbcStatement->Execute() previous statement is executing"), s, t⟩
  else
    let o1 := s.SetAttribute d SQL_ATTR_ROW_BIND_TYPE (.value SQL_BIND_BY_COLUMN) t
    match o1.result with
    | .error e => ⟨.error e, o1.state, o1.trace⟩
    | .ok _ =>
      let o2 := o1.state.SetAttribute d SQL_ATTR_ROW_ARRAY_SIZE (.value opts.row_array_size)
        o1.trace
      match o2.result with
      | .error e => ⟨.error e, o2.state, o2.trace⟩
      | .ok _ =>
        let c := NativeCall.SQLExecute o2.state.handle
        let return_code := (d o2.trace c).rc
        if notSuccess return_code then
          ⟨.error (.diagnostics "OdbcStatement->Execute() SQLExecute" SQL_HANDLE_STMT
            o2.state.handle return_code), o2.state, o2.trace ++ [c]⟩
        else ⟨.ok (), { o2.state with executing := true }, o2.trace ++ [c]⟩

/-- The member `OdbcStatement::Fetch`.  The local `rows_fetched` starts at
zero, its address is registered with the driver, and after `SQLFetchScroll`
its content is returned. -/
def OdbcStatement.Fetch (d : Driver) (s : OdbcStatement) (t : Trace) :
    Outcome OdbcStatement Int :=
  if s.handle = SQL_NULL_HSTMT then
    ⟨.error (.exception "OdbcStatement->Fetch() handle is null"), s, t⟩
  else if !s.prepared then
    ⟨.error (.exception "OdbcStatement->Fetch() statement is not prepared"), s, t⟩
  else if !s.executing then
    ⟨.error (.exception "OdbcStatement->Fetch() statement is not executing"), s, t⟩
  else
    let o := s.SetAttribute d SQL_ATTR_ROWS_FETCHED_PTR .rowsFetchedPtr t
    match o.result with
    | .error e => ⟨.error e, o.state, o.trace⟩
    | .ok _ =>
      let c := NativeCall.SQLFetchScroll o.state.handle SQL_FETCH_NEXT 0
      let r := d o.trace c
      let rows_fetched := r.rowsFetched
      if r.rc != SQL_SUCCESS && r.rc != SQL_SUCCESS_WITH_INFO && r.rc != SQL_NO_DATA_FOUND then
        ⟨.error (.diagnostics "OdbcStatement->Fetch() SQLFetchScroll" SQL_HANDLE_STMT
          o.state.handle r.rc), o.state, o.trace ++ [c]⟩
      else ⟨.ok rows_fetched, o.state, o.trace ++ [c]⟩

/-- The native calls `DescribeColumns` has issued for the first `i` columns,
after `SQLNumResultCols`. -/
def describeCalls (handle : Nat) (i : Nat) : Trace :=
  (List.range i).map (fun j => NativeCall.SQLDescribeCol handle (j + 1) sizeof_name)

/-- The driver's response to the `SQLDescribeCol` call for column ordinal
`i + 1`, when it is made by `DescribeColumns` started after the calls `t`. -/
def describeResponse (d : Driver) (handle : Nat) (t : Trace) (i : Nat) : Response :=
  d (t ++ [NativeCall.SQLNumResultCols handle] ++ describeCalls handle i)
    (NativeCall.SQLDescribeCol handle (i + 1) sizeof_name)

/-- The column description that holds a driver report together with a tag's
code and an element length. -/
def describedColumn (r : ColumnReport) (tag : MemTag) (len : Nat) : OdbcColumnDescription :=
  { name := r.name, name_length := r.name_length, sql_data_type := r.sql_data_type,
    c_data_type := tag.code, size := r.size, length := len,
    decimal_digits := r.decimal_digits, nullable := r.nullable }

/-! ## `OdbcCatalog`: the in-memory exclusivity guard -/

/-- The members of `OdbcCatalog` the exclusivity guard reads and writes.  The
mutex `in_memory_lock` makes each call's test-and-set atomic; calls are taken
one after the other, in the order they pass the lock. -/
structure OdbcCatalog where
  path : String
  in_memory : Bool
  active_in_memory : Bool
  deriving DecidableEq, Repr

/-- The constructor `OdbcCatalog(db_p, path, access_mode)`. -/
def OdbcCatalog.new (path : String) : OdbcCatalog :=
  { path := path, in_memory := path == ":memory:", active_in_memory := false }

/-- The member `OdbcCatalog::InMemory`. -/
def OdbcCatalog.InMemory (c : OdbcCatalog) : Bool := c.in_memory

/-- The member `OdbcCatalog::GetInMemoryDatabase`; the returned pointer to
`in_memory_db` is the unit value. -/
def OdbcCatalog.GetInMemoryDatabase (c : OdbcCatalog) : Except OdbcError Unit × OdbcCatalog :=
  if !c.InMemory then
    (.error (.internalException "GetInMemoryDatabase() called on a non-in-memory database"), c)
  else if c.active_in_memory then
    (.error (.transactionException
      "Only a single transaction can be active on an in-memory Odbc database at a time"), c)
  else (.ok (), { c with active_in_memory := true })

/-- The member `OdbcCatalog::ReleaseInMemoryDatabase`. -/
def OdbcCatalog.ReleaseInMemoryDatabase (c : OdbcCatalog) :
    Except OdbcError Unit × OdbcCatalog :=
  if !c.InMemory then (.ok (), c)
  else if !c.active_in_memory then
    (.error (.internalException
      "ReleaseInMemoryDatabase called but there is no active transaction on an in-memory database"),
      c)
  else (.ok (), { c with active_in_memory := false })

/-- A call of one of the two exclusivity operations. -/
inductive CatalogCall where
  | get
  | release
  deriving DecidableEq, Repr

/-- One call on a catalog. -/
def OdbcCatalog.call (c : OdbcCatalog) : CatalogCall → Except OdbcError Unit × OdbcCatalog
  | .get => c.GetInMemoryDatabase
  | .release => c.ReleaseInMemoryDatabase

/-- A sequence of calls on a catalog: each call with its result, and the
catalog afterwards. -/
def OdbcCatalog.run (c : OdbcCatalog) :
    List CatalogCall → List (CatalogCall × Except OdbcError Unit) × OdbcCatalog
  | [] => ([], c)
  | k :: ks =>
    let r := c.call k
    let rest := OdbcCatalog.run r.2 ks
    ((k, r.1) :: rest.1, rest.2)

/-- The number of successful acquisitions in a log of calls, less the number
of successful releases. -/
def outstanding : List (CatalogCall × Except OdbcError Unit) → Int
  | [] => 0
  | (.get, .ok _) :: rest => outstanding rest + 1
  | (.release, .ok _) :: rest => outstanding rest - 1
  | (_, .error _) :: rest => outstanding rest

/-- The flag `active_in_memory` as a number. -/
def activeCount (c : OdbcCatalog) : Int := if c.active_in_memory then 1 else 0

/-! ## Sequences of calls on a statement -/

/-- A call of one of the public member functions of `OdbcStatement`, with its
arguments. -/
inductive StatementCall where
  | Init
  | Prepare (sql_statement : String)
  | SetAttribute (attr : Int) (value : AttrValue)
  | BindColumn (column_number : Nat) (c_data_type : Int) (buffer : Nat)
      (column_buffer_length : Nat) (strlen_or_ind : Nat)
  | NumResultCols
  | DescribeColumns
  | Execute (opts : OdbcStatementOptions)
  | Fetch
  deriving DecidableEq, Repr

/-- What a call on a statement leaves behind: whether it returned normally,
the statement and the log of native calls. -/
structure CallEffect where
  ok : Bool
  state : OdbcStatement
  trace : Trace
  deriving DecidableEq, Repr

/-- The effect of an outcome, its returned value dropped. -/
def Outcome.effect {α : Type} (o : Outcome OdbcStatement α) : CallEffect :=
  { ok := succeeded o.result, state := o.state, trace := o.trace }

/-- One call on a statement. -/
def OdbcStatement.call (d : Driver) (s : OdbcStatement) (t : Trace) :
    StatementCall → CallEffect
  | .Init => (s.Init d t).effect
  | .Prepare sql_statement => (s.Prepare d sql_statement t).effect
  | .SetAttribute attr value => (s.SetAttribute d attr value t).effect
  | .BindColumn column_number c_data_type buffer column_buffer_length strlen_or_ind =>
    (s.BindColumn d column_number c_data_type buffer column_buffer_length strlen_or_ind
      t).effect
  | .NumResultCols => (s.NumResultCols d t).effect
  | .DescribeColumns => (s.DescribeColumns d t).effect
  | .Execute opts => (s.Execute d opts t).effect
  | .Fetch => (s.Fetch d t).effect

/-- A sequence of calls on a statement, each made on what the one before left,
whether it returned normally or threw: the statement and the log at the end. -/
def OdbcStatement.run (d : Driver) (s : OdbcStatement) (t : Trace) :
    List StatementCall → OdbcStatement × Trace
  | [] => (s, t)
  | k :: ks =>
    let e := s.call d t k
    OdbcStatement.run d e.state e.trace ks

/-- The lifecycle invariant of a statement: executing implies prepared, and
prepared implies that the handle is allocated. -/
def OdbcStatement.lifecycleOk (s : OdbcStatement) : Prop :=
  (s.executing = true → s.prepared = true) ∧ (s.prepared = true → s.handle ≠ SQL_NULL_HSTMT)

instance (s : OdbcStatement) : Decidable s.lifecycleOk := by
  unfold OdbcStatement.lifecycleOk; exact inferInstance

/-! ## A mock driver -/

/-- The row-array size last set in a log of calls, when one was set. -/
def mockLastRowArraySize : Trace → Option Nat
  | [] => none
  | c :: rest =>
    match mockLastRowArraySize rest with
    | some n => some n
    | none =>
      match c with
      | .SQLSetStmtAttr _ a (.value v) => if a = SQL_ATTR_ROW_ARRAY_SIZE then some v else none
      | _ => none

/-- The row-array size a statement is configured with; one row by default. -/
def mockRowArraySize (t : Trace) : Nat := (mockLastRowArraySize t).getD 1

/-- The number of rows the mock driver delivered over the fetch calls of a
log, out of a result set of `total` rows in blocks of `block` rows. -/
def mockDelivered (total block : Nat) : Trace → Nat
  | [] => 0
  | c :: rest =>
    match c with
    | .SQLFetchScroll _ _ _ => min total (mockDelivered total block rest + block)
    | _ => mockDelivered total block rest

/-- A mock driver: every call succeeds; a statement has two result columns,
`id` (integer) and `name` (character, declared size 20); the result set has
three rows, delivered in blocks of the configured row-array size; a fetch past
the last row reports "no data" and zero rows. -/
def mockDriver : Driver := fun t c =>
  match c with
  | .SQLAllocHandle _ _ => { rc := SQL_SUCCESS, handleOut := 1 }
  | .SQLNumResultCols _ => { rc := SQL_SUCCESS, columnCount := 2 }
  | .SQLDescribeCol _ columnNumber _ =>
    if columnNumber = 1 then
      { rc := SQL_SUCCESS,
        column := { name := "id", name_length := 2, sql_data_type := SQL_INTEGER, size := 10,
                    decimal_digits := 0, nullable := 0 } }
    else if columnNumber = 2 then
      { rc := SQL_SUCCESS,
        column := { name := "name", name_length := 4, sql_data_type := SQL_CHAR, size := 20,
                    decimal_digits := 0, nullable := 1 } }
    else { rc := SQL_ERROR }
  | .SQLFetchScroll _ _ _ =>
    let block := mockRowArraySize t
    let left := 3 - mockDelivered 3 block t
    if left = 0 then { rc := SQL_NO_DATA_FOUND, rowsFetched := 0 }
    else { rc := SQL_SUCCESS, rowsFetched := min block left }
  | _ => { rc := SQL_SUCCESS }

/-- A driver whose every call fails with `SQL_ERROR`. -/
def failingDriver : Driver := fun _ _ => { rc := SQL_ERROR }

/-! ## The end-to-end scenario under the mock driver -/

/-- `Init` on a fresh statement of a dialed connection with handle 5. -/
def scenarioInit : Outcome OdbcStatement Unit :=
  OdbcStatement.Init mockDriver (OdbcStatement.new { handle := 5, dialed := true }) []

/-- Then `Prepare("SELECT id, name FROM t")`. -/
def scenarioPrepare : Outcome OdbcStatement Unit :=
  OdbcStatement.Prepare mockDriver "SELECT id, name FROM t" scenarioInit.state
    scenarioInit.trace

/-- Then `DescribeColumns()`. -/
def scenarioDescribe : Outcome OdbcStatement (List OdbcColumnDescription) :=
  OdbcStatement.DescribeColumns mockDriver scenarioPrepare.state scenarioPrepare.trace

/-- Then `Execute` with `row_array_size = 2`. -/
def scenarioExecute : Outcome OdbcStatement Unit :=
  OdbcStatement.Execute mockDriver { row_array_size := 2 } scenarioDescribe.state
    scenarioDescribe.trace

/-- Then a first `Fetch()`. -/
def scenarioFetch1 : Outcome OdbcStatement Int :=
  OdbcStatement.Fetch mockDriver scenarioExecute.state scenarioExecute.trace

/-- Then a second `Fetch()`. -/
def scenarioFetch2 : Outcome OdbcStatement Int :=
  OdbcStatement.Fetch mockDriver scenarioFetch1.state scenarioFetch1.trace

/-- Then a third `Fetch()`. -/
def scenarioFetch3 : Outcome OdbcStatement Int :=
  OdbcStatement.Fetch mockDriver scenarioFetch2.state scenarioFetch2.trace

end OdbcScanner

namespace OdbcScanner

/-! ## Lemmas on the constants -/

/-- Clearing the lowest bit of a natural number. -/
theorem ldiff_one (m : Nat) : Nat.ldiff m 1 = m - m % 2 := by
  conv_lhs => rw [← Nat.bit_decomp m]
  have h1 : (1 : Nat) = Nat.bit true 0 := by simp [Nat.bit_val]
  rw [h1, Nat.ldiff_bit]
  have h0 : Nat.ldiff m.div2 0 = m.div2 := by
    unfold Nat.ldiff
    rw [Nat.bitwise_zero_right]; simp
  rw [h0]
  simp [Nat.bit_val, Nat.div2_val]
  omega

/-- Setting the lowest bit of a natural number. -/
theorem lor_one (m : Nat) : m ||| 1 = m + 1 - m % 2 := by
  conv_lhs => rw [← Nat.bit_decomp m]
  have h1 : (1 : Nat) = Nat.bit true 0 := by simp [Nat.bit_val]
  rw [h1, Nat.lor_bit]
  simp [Nat.bit_val, Nat.div2_val]
  omega

/-- The mask `rc & ~1` of `SQL_SUCCEEDED` is `rc` less its remainder modulo 2. -/
theorem land_not_one (rc : Int) : Int.land rc (Int.not 1) = rc - rc % 2 := by
  have h : Int.not 1 = Int.negSucc 1 := rfl
  rw [h]
  cases rc with
  | ofNat m =>
    show ((Nat.ldiff m 1 : Nat) : Int) = _
    rw [ldiff_one]
    simp only [Int.ofNat_eq_coe]
    omega
  | negSucc m =>
    show Int.negSucc (m ||| 1) = _
    rw [lor_one]
    simp only [Int.negSucc_eq]
    omega

/-- The definition of `SQL_SUCCEEDED` is the macro's bit mask test. -/
theorem SQL_SUCCEEDED_eq_mask (rc : Int) :
    SQL_SUCCEEDED rc = (Int.land rc (Int.not 1) == 0) := by
  rw [land_not_one]; rfl

/-- The return codes `SQL_SUCCEEDED` accepts are success and success-with-info. -/
theorem SQL_SUCCEEDED_iff (rc : Int) :
    SQL_SUCCEEDED rc = true ↔ rc = SQL_SUCCESS ∨ rc = SQL_SUCCESS_WITH_INFO := by
  simp only [SQL_SUCCEEDED, SQL_SUCCESS, SQL_SUCCESS_WITH_INFO, beq_iff_eq]
  omega

/-- The return codes `notSuccess` rejects. -/
theorem notSuccess_eq_false_iff (rc : Int) :
    notSuccess rc = false ↔ rc = SQL_SUCCESS ∨ rc = SQL_SUCCESS_WITH_INFO := by
  simp only [notSuccess, SQL_SUCCESS, SQL_SUCCESS_WITH_INFO, Bool.and_eq_false_iff,
    bne_eq_false_iff_eq]

/-! ## C1: the column type mapper against the mapping table -/

/-- The mapper computes the mapping table, with the sum taken in `SQLULEN`. -/
theorem mapper_eq_tableULEN (col_desc : OdbcColumnDescription) :
    SqlDataTypeToCDataType col_desc = tableOutcome MapTypeULEN col_desc := by
  unfold SqlDataTypeToCDataType tableOutcome MapTypeULEN MapTypeWith
  by_cases h0 : col_desc.sql_data_type = SQL_SMALLINT
  · rw [if_pos h0, if_pos h0]; rfl
  rw [if_neg h0, if_neg h0]
  by_cases h1 : col_desc.sql_data_type = SQL_INTEGER
  · rw [if_pos h1, if_pos h1]; rfl
  rw [if_neg h1, if_neg h1]
  by_cases h2 : col_desc.sql_data_type = SQL_BIGINT
  · rw [if_pos h2, if_pos h2]; rfl
  rw [if_neg h2, if_neg h2]
  by_cases h3 : col_desc.sql_data_type = SQL_DECIMAL ∨ col_desc.sql_data_type = SQL_NUMERIC
  · rw [if_pos h3, if_pos h3]; rfl
  rw [if_neg h3, if_neg h3]
  by_cases h4 : col_desc.sql_data_type = SQL_DOUBLE ∨ col_desc.sql_data_type = SQL_FLOAT
  · rw [if_pos h4, if_pos h4]; rfl
  rw [if_neg h4, if_neg h4]
  by_cases h5 : col_desc.sql_data_type = SQL_REAL
  · rw [if_pos h5, if_pos h5]; rfl
  rw [if_neg h5, if_neg h5]
  by_cases h6 : col_desc.sql_data_type = SQL_CHAR ∨ col_desc.sql_data_type = SQL_VARCHAR ∨
      col_desc.sql_data_type = SQL_LONGVARCHAR
  · rw [if_pos h6, if_pos h6]; rfl
  rw [if_neg h6, if_neg h6]
  by_cases h7 : col_desc.sql_data_type = SQL_BINARY ∨ col_desc.sql_data_type = SQL_VARBINARY ∨
      col_desc.sql_data_type = SQL_LONGVARBINARY
  · rw [if_pos h7, if_pos h7]; rfl
  rw [if_neg h7, if_neg h7]
  by_cases h8 : col_desc.sql_data_type = SQL_TYPE_DATE
  · rw [if_pos h8, if_pos h8]; rfl
  rw [if_neg h8, if_neg h8]
  by_cases h9 : col_desc.sql_data_type = SQL_TYPE_TIME
  · rw [if_pos h9, if_pos h9]; rfl
  rw [if_neg h9, if_neg h9]
  by_cases h10 : col_desc.sql_data_type = SQL_TYPE_TIMESTAMP
  · rw [if_pos h10, if_pos h10]; rfl
  rw [if_neg h10, if_neg h10]

/-- C1 (as amended): the column type mapper equals the mapping table as a
partial function of the SQL type code and the declared size, with "declared
size + 1" computed in `SQLULEN` arithmetic (modulo `2 ^ 64`): on the seventeen
codes of the table it succeeds and sets tag and length to the table's entry,
leaving the other members as they were; on every other code it fails with the
error that cites the code.  When `declared size + 1` is below `2 ^ 64` the
length is the plain sum, as the table writes it. -/
theorem SqlDataTypeToCDataType_eq_table (col_desc : OdbcColumnDescription) :
    SqlDataTypeToCDataType col_desc = tableOutcome MapTypeULEN col_desc ∧
    (col_desc.size + 1 < 2 ^ 64 →
      SqlDataTypeToCDataType col_desc = tableOutcome MapType col_desc) := by
  refine ⟨mapper_eq_tableULEN col_desc, fun h => ?_⟩
  rw [mapper_eq_tableULEN]
  have hadd : SQLULEN.add col_desc.size 1 = col_desc.size + 1 := by
    simp only [SQLULEN.add, SQLULEN_BITS]
    exact Nat.mod_eq_of_lt h
  simp only [tableOutcome, MapTypeULEN, MapType, MapTypeWith, hadd]

/-- C1, witness: an integer column and a character column of declared size 20. -/
theorem SqlDataTypeToCDataType_eq_table_witness :
    SqlDataTypeToCDataType
        { OdbcColumnDescription.zero with sql_data_type := SQL_VARCHAR, size := 20 }
      = .ok { OdbcColumnDescription.zero with
                sql_data_type := SQL_VARCHAR, size := 20,
                c_data_type := SQL_C_CHAR, length := 21 } :=
  ((SqlDataTypeToCDataType_eq_table
      { OdbcColumnDescription.zero with sql_data_type := SQL_VARCHAR, size := 20 }).2
    (by decide)).trans (by decide)

/-- C1, counterexample: for a character column whose declared size is the
largest `SQLULEN`, the mapper succeeds with length `0`, while the table's
"declared size + 1" is `2 ^ 64`. -/
theorem SqlDataTypeToCDataType_length_wraps :
    SqlDataTypeToCDataType
        { OdbcColumnDescription.zero with sql_data_type := SQL_CHAR, size := 2 ^ 64 - 1 }
      = .ok { OdbcColumnDescription.zero with
                sql_data_type := SQL_CHAR, size := 2 ^ 64 - 1,
                c_data_type := SQL_C_CHAR, length := 0 } ∧
    MapType SQL_CHAR (2 ^ 64 - 1) = some (MemTag.characterBuffer, 2 ^ 64) ∧
    SqlDataTypeToCDataType
        { OdbcColumnDescription.zero with sql_data_type := SQL_CHAR, size := 2 ^ 64 - 1 }
      ≠ tableOutcome MapType
        { OdbcColumnDescription.zero with sql_data_type := SQL_CHAR, size := 2 ^ 64 - 1 } := by
  decide

/-! ## C2, C3: the guards of `Execute` and `Fetch` -/

/-- C2: on a statement that has not been prepared `Execute` fails with a
sequencing error, and on a statement that is not executing `Fetch` fails with
a sequencing error, whatever the driver, the other fields of the statement and
the calls made before; in both cases no native call is issued (the log of
native calls is the one before the call) and the statement is left as it was. -/
theorem Execute_Fetch_guarded (d : Driver) (opts : OdbcStatementOptions) (s : OdbcStatement)
    (t : Trace) :
    (s.prepared = false →
      OdbcStatement.Execute d opts s t =
        ⟨.error (.exception
          (if s.handle = SQL_NULL_HSTMT then "OdbcStatement->Execute() handle is null"
           else "OdbcStatement->Execute() statement is not prepared")), s, t⟩) ∧
    (s.executing = false →
      OdbcStatement.Fetch d s t =
        ⟨.error (.exception
          (if s.handle = SQL_NULL_HSTMT then "OdbcStatement->Fetch() handle is null"
           else if s.prepared = false then "OdbcStatement->Fetch() statement is not prepared"
           else "OdbcStatement->Fetch() statement is not executing")), s, t⟩) := by
  constructor
  · intro hp
    unfold OdbcStatement.Execute
    by_cases hh : s.handle = SQL_NULL_HSTMT
    · simp only [hh, if_true]
    · simp only [hh, if_false, hp, Bool.not_false, if_true]
  · intro he
    unfold OdbcStatement.Fetch
    by_cases hh : s.handle = SQL_NULL_HSTMT
    · simp only [hh, if_true]
    · by_cases hp : s.prepared = false
      · simp only [hh, if_false, hp, Bool.not_false, if_true]
      · have hp1 : s.prepared = true := by simpa using hp
        simp [hh, hp1, he]

/-- C2, witness: a freshly initialised statement (allocated, not prepared, not
executing) under the mock driver, after one native call. -/
theorem Execute_Fetch_guarded_witness :
    (OdbcStatement.Execute mockDriver ⟨2⟩ ⟨⟨5, true⟩, 1, false, false⟩
        [.SQLAllocHandle SQL_HANDLE_STMT 5]).trace = [.SQLAllocHandle SQL_HANDLE_STMT 5] ∧
    (OdbcStatement.Fetch mockDriver ⟨⟨5, true⟩, 1, false, false⟩
        [.SQLAllocHandle SQL_HANDLE_STMT 5]).result
      = .error (.exception "OdbcStatement->Fetch() statement is not prepared") :=
  ⟨congrArg Outcome.trace
      ((Execute_Fetch_guarded mockDriver ⟨2⟩ ⟨⟨5, true⟩, 1, false, false⟩
        [.SQLAllocHandle SQL_HANDLE_STMT 5]).1 rfl),
   congrArg Outcome.result
      ((Execute_Fetch_guarded mockDriver ⟨2⟩ ⟨⟨5, true⟩, 1, false, false⟩
        [.SQLAllocHandle SQL_HANDLE_STMT 5]).2 rfl)⟩

/-- C3: on a statement whose executing flag is set, `Execute` fails with a
sequencing error, issues no native call (so no second native execute) and
leaves the statement, its prepared and executing flags included, as it was. -/
theorem Execute_reentrant_rejected (d : Driver) (opts : OdbcStatementOptions)
    (s : OdbcStatement) (t : Trace) (h : s.executing = true) :
    OdbcStatement.Execute d opts s t =
      ⟨.error (.exception
        (if s.handle = SQL_NULL_HSTMT then "OdbcStatement->Execute() handle is null"
         else if s.prepared = false then "OdbcStatement->Execute() statement is not prepared"
         else "OdbcStatement->Execute() previous statement is executing")), s, t⟩ := by
  unfold OdbcStatement.Execute
  by_cases hh : s.handle = SQL_NULL_HSTMT
  · simp only [hh, if_true]
  · by_cases hp : s.prepared = false
    · simp only [hh, if_false, hp, Bool.not_false, if_true]
    · have hp1 : s.prepared = true := by simpa using hp
      simp [hh, hp1, h]

/-- C3, witness: the statement left by a successful `Execute` under the mock
driver; the second `Execute` adds no call to the log and keeps both flags. -/
theorem Execute_reentrant_rejected_witness :
    (OdbcStatement.Execute mockDriver ⟨2⟩ ⟨⟨5, true⟩, 1, true, false⟩ []).state
        = ⟨⟨5, true⟩, 1, true, true⟩ ∧
    OdbcStatement.Execute mockDriver ⟨2⟩ ⟨⟨5, true⟩, 1, true, true⟩
        [.SQLSetStmtAttr 1 SQL_ATTR_ROW_BIND_TYPE (.value 0),
         .SQLSetStmtAttr 1 SQL_ATTR_ROW_ARRAY_SIZE (.value 2), .SQLExecute 1]
      = ⟨.error (.exception "OdbcStatement->Execute() previous statement is executing"),
         ⟨⟨5, true⟩, 1, true, true⟩,
         [.SQLSetStmtAttr 1 SQL_ATTR_ROW_BIND_TYPE (.value 0),
          .SQLSetStmtAttr 1 SQL_ATTR_ROW_ARRAY_SIZE (.value 2), .SQLExecute 1]⟩ :=
  ⟨by decide,
   (Execute_reentrant_rejected mockDriver ⟨2⟩ ⟨⟨5, true⟩, 1, true, true⟩ _ rfl).trans
     (by decide)⟩

/-! ## C4: in-memory exclusivity over call sequences -/

/-- Over any sequence of calls on an in-memory catalog, the catalog stays
in-memory and the balance of successful acquisitions and releases is the
change of the active flag. -/
theorem run_balance (calls : List CatalogCall) :
    ∀ c : OdbcCatalog, c.in_memory = true →
      (c.run calls).2.in_memory = true ∧
      outstanding (c.run calls).1 = activeCount (c.run calls).2 - activeCount c := by
  induction calls with
  | nil => intro c h; simp [OdbcCatalog.run, outstanding, h]
  | cons k ks ih =>
    intro c h
    obtain ⟨path, im, act⟩ := c
    simp only at h
    subst h
    cases k <;> cases act
    · have := ih ⟨path, true, true⟩ rfl
      simp only [OdbcCatalog.run, OdbcCatalog.call, OdbcCatalog.GetInMemoryDatabase,
        OdbcCatalog.InMemory, outstanding, activeCount] at this ⊢
      simp at this ⊢
      refine ⟨this.1, ?_⟩
      omega
    · have := ih ⟨path, true, true⟩ rfl
      simp only [OdbcCatalog.run, OdbcCatalog.call, OdbcCatalog.GetInMemoryDatabase,
        OdbcCatalog.InMemory, outstanding, activeCount] at this ⊢
      simp at this ⊢
      exact this
    · have := ih ⟨path, true, false⟩ rfl
      simp only [OdbcCatalog.run, OdbcCatalog.call, OdbcCatalog.ReleaseInMemoryDatabase,
        OdbcCatalog.InMemory, outstanding, activeCount] at this ⊢
      simp at this ⊢
      exact this
    · have := ih ⟨path, true, false⟩ rfl
      simp only [OdbcCatalog.run, OdbcCatalog.call, OdbcCatalog.ReleaseInMemoryDatabase,
        OdbcCatalog.InMemory, outstanding, activeCount] at this ⊢
      simp at this ⊢
      refine ⟨this.1, ?_⟩
      omega

/-- C4: on an in-memory catalog that starts with no active transaction, after
every finite sequence of `GetInMemoryDatabase` / `ReleaseInMemoryDatabase`
calls the number of successful acquisitions not yet matched by a successful
release is 0 or 1 and is the `active_in_memory` flag; the next
`GetInMemoryDatabase` succeeds (setting the flag) exactly when that number is 0
and otherwise fails and changes nothing; the next `ReleaseInMemoryDatabase`
succeeds (clearing the flag) exactly when it is 1 and otherwise fails with the
internal-invariant error and changes nothing.  The sequence acquire, acquire,
release, acquire yields success, failure, success, success. -/
theorem inMemory_exclusivity (calls : List CatalogCall) :
    ((outstanding ((OdbcCatalog.new ":memory:").run calls).1 = 0 ∨
      outstanding ((OdbcCatalog.new ":memory:").run calls).1 = 1) ∧
     outstanding ((OdbcCatalog.new ":memory:").run calls).1
       = activeCount ((OdbcCatalog.new ":memory:").run calls).2 ∧
     (succeeded ((OdbcCatalog.new ":memory:").run calls).2.GetInMemoryDatabase.1 = true ↔
       outstanding ((OdbcCatalog.new ":memory:").run calls).1 = 0) ∧
     ((OdbcCatalog.new ":memory:").run calls).2.GetInMemoryDatabase
       = (if outstanding ((OdbcCatalog.new ":memory:").run calls).1 = 0 then
            (.ok (), { ((OdbcCatalog.new ":memory:").run calls).2 with
                         active_in_memory := true })
          else
            (.error (.transactionException
              "Only a single transaction can be active on an in-memory Odbc database at a time"),
             ((OdbcCatalog.new ":memory:").run calls).2)) ∧
     (succeeded ((OdbcCatalog.new ":memory:").run calls).2.ReleaseInMemoryDatabase.1 = true ↔
       outstanding ((OdbcCatalog.new ":memory:").run calls).1 = 1) ∧
     ((OdbcCatalog.new ":memory:").run calls).2.ReleaseInMemoryDatabase
       = (if outstanding ((OdbcCatalog.new ":memory:").run calls).1 = 1 then
            (.ok (), { ((OdbcCatalog.new ":memory:").run calls).2 with
                         active_in_memory := false })
          else
            (.error (.internalException
              "ReleaseInMemoryDatabase called but there is no active transaction on an in-memory database"),
             ((OdbcCatalog.new ":memory:").run calls).2))) ∧
    ((OdbcCatalog.new ":memory:").run [.get, .get, .release, .get]).1.map
        (fun r => succeeded r.2) = [true, false, true, true] := by
  refine ⟨?_, by decide⟩
  have h0 : (OdbcCatalog.new ":memory:").in_memory = true := by decide
  have ha : activeCount (OdbcCatalog.new ":memory:") = 0 := by decide
  obtain ⟨him, hbal⟩ := run_balance calls (OdbcCatalog.new ":memory:") h0
  rw [ha, sub_zero] at hbal
  rw [hbal]
  generalize ((OdbcCatalog.new ":memory:").run calls).2 = c at him
  obtain ⟨path, im, act⟩ := c
  simp only at him
  subst him
  cases act <;>
    simp [activeCount, OdbcCatalog.GetInMemoryDatabase, OdbcCatalog.ReleaseInMemoryDatabase,
      OdbcCatalog.InMemory, succeeded]

/-! ## C5: block fetch at end of data -/

/-- On a statement in the executing state, when registering the rows-fetched
pointer succeeds and the native fetch reports "no data", `Fetch` returns
normally the content of the rows-fetched object, leaves the statement as it
was and has issued the set-attribute call and the native fetch. -/
theorem Fetch_noData_value (d : Driver) (s : OdbcStatement) (t : Trace)
    (hh : s.handle ≠ SQL_NULL_HSTMT) (hp : s.prepared = true) (he : s.executing = true)
    (hattr : notSuccess
      (d t (.SQLSetStmtAttr s.handle SQL_ATTR_ROWS_FETCHED_PTR .rowsFetchedPtr)).rc = false)
    (hnd : (d (t ++ [.SQLSetStmtAttr s.handle SQL_ATTR_ROWS_FETCHED_PTR .rowsFetchedPtr])
      (.SQLFetchScroll s.handle SQL_FETCH_NEXT 0)).rc = SQL_NO_DATA_FOUND) :
    OdbcStatement.Fetch d s t =
      ⟨.ok (d (t ++ [.SQLSetStmtAttr s.handle SQL_ATTR_ROWS_FETCHED_PTR .rowsFetchedPtr])
          (.SQLFetchScroll s.handle SQL_FETCH_NEXT 0)).rowsFetched,
       s,
       t ++ [.SQLSetStmtAttr s.handle SQL_ATTR_ROWS_FETCHED_PTR .rowsFetchedPtr]
         ++ [.SQLFetchScroll s.handle SQL_FETCH_NEXT 0]⟩ := by
  unfold OdbcStatement.Fetch OdbcStatement.SetAttribute
  simp only [if_neg hh, hp, he, Bool.not_true, Bool.false_eq_true, if_false, hattr, hnd]
  rfl

/-- The mock driver keeps the contract on the rows-fetched buffer. -/
theorem mockDriver_zeroOnNoData : Driver.zeroOnNoData mockDriver := by
  intro t handle fetchOrientation fetchOffset h
  simp only [mockDriver] at h ⊢
  split at h
  · rename_i h0
    simp only [h0, if_true]
  · have hne : SQL_SUCCESS ≠ SQL_NO_DATA_FOUND := by decide
    exact absurd h hne

/-- C5: for every driver that keeps the ODBC contract on the rows-fetched
buffer and every statement in the executing state (handle allocated, prepared,
executing), if the native fetch call is reached (registering the rows-fetched
pointer succeeded) and reports "no data", then `Fetch` returns a delivered-row
count of zero, raises no error, and leaves the statement as it was, prepared
and executing both still set; the native calls issued are the set-attribute
call and the native fetch. -/
theorem Fetch_noData (d : Driver) (s : OdbcStatement) (t : Trace)
    (hcontract : d.zeroOnNoData)
    (hh : s.handle ≠ SQL_NULL_HSTMT) (hp : s.prepared = true) (he : s.executing = true)
    (hattr : notSuccess
      (d t (.SQLSetStmtAttr s.handle SQL_ATTR_ROWS_FETCHED_PTR .rowsFetchedPtr)).rc = false)
    (hnd : (d (t ++ [.SQLSetStmtAttr s.handle SQL_ATTR_ROWS_FETCHED_PTR .rowsFetchedPtr])
      (.SQLFetchScroll s.handle SQL_FETCH_NEXT 0)).rc = SQL_NO_DATA_FOUND) :
    OdbcStatement.Fetch d s t =
      ⟨.ok 0, s,
       t ++ [.SQLSetStmtAttr s.handle SQL_ATTR_ROWS_FETCHED_PTR .rowsFetchedPtr]
         ++ [.SQLFetchScroll s.handle SQL_FETCH_NEXT 0]⟩ ∧
    (OdbcStatement.Fetch d s t).state.prepared = true ∧
    (OdbcStatement.Fetch d s t).state.executing = true := by
  have key := Fetch_noData_value d s t hh hp he hattr hnd
  rw [hcontract _ _ _ _ hnd] at key
  rw [key]
  exact ⟨rfl, hp, he⟩

/-- C5, witness: the third fetch of the mock driver's three-row result set in
blocks of two; the driver reports "no data" and `Fetch` returns zero. -/
theorem Fetch_noData_witness :
    OdbcStatement.Fetch mockDriver ⟨⟨5, true⟩, 1, true, true⟩
      [.SQLSetStmtAttr 1 SQL_ATTR_ROW_ARRAY_SIZE (.value 2), .SQLExecute 1,
       .SQLFetchScroll 1 SQL_FETCH_NEXT 0, .SQLFetchScroll 1 SQL_FETCH_NEXT 0]
      = ⟨.ok 0, ⟨⟨5, true⟩, 1, true, true⟩,
         [.SQLSetStmtAttr 1 SQL_ATTR_ROW_ARRAY_SIZE (.value 2), .SQLExecute 1,
          .SQLFetchScroll 1 SQL_FETCH_NEXT 0, .SQLFetchScroll 1 SQL_FETCH_NEXT 0,
          .SQLSetStmtAttr 1 SQL_ATTR_ROWS_FETCHED_PTR .rowsFetchedPtr,
          .SQLFetchScroll 1 SQL_FETCH_NEXT 0]⟩ :=
  (Fetch_noData mockDriver ⟨⟨5, true⟩, 1, true, true⟩
      [.SQLSetStmtAttr 1 SQL_ATTR_ROW_ARRAY_SIZE (.value 2), .SQLExecute 1,
       .SQLFetchScroll 1 SQL_FETCH_NEXT 0, .SQLFetchScroll 1 SQL_FETCH_NEXT 0]
      mockDriver_zeroOnNoData (by decide) rfl rfl (by decide) (by decide)).1

/-! ## C6, C7: `Disconnect` and the teardown of a connection -/

/-- C6 (as amended): for every connection and driver, when a `Disconnect`
returns without error, a second `Disconnect` right after it issues no native
call, raises no error and changes nothing; on a connection that is not dialed
`Disconnect` is a no-op (no native call, state unchanged).  When the first
`Disconnect` fails, the connection is left as it was, still dialed, and a
second `Disconnect` issues the native disconnect again. -/
theorem Disconnect_idempotent (d : Driver) (conn : OdbcConnection) (t : Trace) :
    (succeeded (conn.Disconnect d t).result = true →
      (conn.Disconnect d t).state.Disconnect d (conn.Disconnect d t).trace
        = ⟨.ok (), (conn.Disconnect d t).state, (conn.Disconnect d t).trace⟩) ∧
    (conn.dialed = false → conn.Disconnect d t = ⟨.ok (), conn, t⟩) ∧
    (succeeded (conn.Disconnect d t).result = false →
      conn.dialed = true ∧ (conn.Disconnect d t).state = conn ∧
      (conn.Disconnect d t).trace = t ++ [.SQLDisconnect conn.handle] ∧
      ((conn.Disconnect d t).state.Disconnect d (conn.Disconnect d t).trace).trace
        = t ++ [.SQLDisconnect conn.handle] ++ [.SQLDisconnect conn.handle]) := by
  obtain ⟨handle, dialed⟩ := conn
  cases dialed
  · simp [OdbcConnection.Disconnect, succeeded]
  · by_cases hrc : notSuccess (d t (.SQLDisconnect handle)).rc = true
    · simp [OdbcConnection.Disconnect, succeeded, hrc]
      split <;> rfl
    · have hrc1 : notSuccess (d t (.SQLDisconnect handle)).rc = false := by simpa using hrc
      simp [OdbcConnection.Disconnect, succeeded, hrc1]

/-- C6, witness: a dialed connection under the mock driver, and a connection
that is not dialed. -/
theorem Disconnect_idempotent_witness :
    OdbcConnection.Disconnect mockDriver ⟨5, false⟩ [.SQLDisconnect 5]
      = ⟨.ok (), ⟨5, false⟩, [.SQLDisconnect 5]⟩ ∧
    OdbcConnection.Disconnect failingDriver ⟨0, false⟩ [] = ⟨.ok (), ⟨0, false⟩, []⟩ ∧
    ((OdbcConnection.Disconnect failingDriver ⟨5, true⟩ []).state.Disconnect failingDriver
        (OdbcConnection.Disconnect failingDriver ⟨5, true⟩ []).trace).trace
      = [.SQLDisconnect 5, .SQLDisconnect 5] :=
  ⟨(Disconnect_idempotent mockDriver ⟨5, true⟩ []).1 (by decide),
   (Disconnect_idempotent failingDriver ⟨0, false⟩ []).2.1 rfl,
   ((Disconnect_idempotent failingDriver ⟨5, true⟩ []).2.2 (by decide)).2.2.2⟩

/-- C6, counterexample: on a dialed connection whose driver fails the native
disconnect, the first `Disconnect` raises, and the second `Disconnect` issues
a second native disconnect and raises as well. -/
theorem Disconnect_twice_after_failure :
    OdbcConnection.Disconnect failingDriver ⟨5, true⟩ [] =
      ⟨.error (.diagnostics "OdbcConnection->Disconnect() SQLDisconnect" SQL_HANDLE_DBC 5
        SQL_ERROR), ⟨5, true⟩, [.SQLDisconnect 5]⟩ ∧
    OdbcConnection.Disconnect failingDriver ⟨5, true⟩ [.SQLDisconnect 5] =
      ⟨.error (.diagnostics "OdbcConnection->Disconnect() SQLDisconnect" SQL_HANDLE_DBC 5
        SQL_ERROR), ⟨5, true⟩, [.SQLDisconnect 5, .SQLDisconnect 5]⟩ := by
  decide

/-- C7 (as amended): destroying a dialed connection with an allocated handle
issues the native disconnect exactly once and as the first native call of the
teardown; when the native disconnect succeeds (success or success-with-info),
the native handle-free call follows it, once, and nothing else is called; when
the native disconnect reports failure, the teardown raises the disconnect's
error and issues no handle-free call. -/
theorem destroy_order (d : Driver) (conn : OdbcConnection) (t : Trace)
    (hd : conn.dialed = true) (hh : conn.handle ≠ SQL_NULL_HDBC) :
    (notSuccess (d t (.SQLDisconnect conn.handle)).rc = false →
      (conn.destroy d t).trace
        = t ++ [.SQLDisconnect conn.handle, .SQLFreeHandle SQL_HANDLE_DBC conn.handle]) ∧
    (notSuccess (d t (.SQLDisconnect conn.handle)).rc = true →
      conn.destroy d t =
        ⟨.error (.diagnostics "OdbcConnection->Disconnect() SQLDisconnect" SQL_HANDLE_DBC
          conn.handle (d t (.SQLDisconnect conn.handle)).rc), conn,
         t ++ [.SQLDisconnect conn.handle]⟩) := by
  obtain ⟨handle, dialed⟩ := conn
  simp only at hd hh
  subst hd
  constructor
  · intro hrc
    simp only [OdbcConnection.destroy, OdbcConnection.Disconnect, OdbcConnection.FreeHandle,
      Bool.not_true, Bool.false_eq_true, if_false, hrc, ne_eq, hh, not_false_eq_true, if_true]
    split <;> simp
  · intro hrc
    simp only [OdbcConnection.destroy, OdbcConnection.Disconnect, Bool.not_true,
      Bool.false_eq_true, if_false, hrc, if_true]

/-- C7, witness: a dialed connection with handle 5, torn down under the mock
driver (disconnect succeeds) and under the failing driver. -/
theorem destroy_order_witness :
    (OdbcConnection.destroy mockDriver ⟨5, true⟩ []).trace
      = [.SQLDisconnect 5, .SQLFreeHandle SQL_HANDLE_DBC 5] ∧
    (OdbcConnection.destroy failingDriver ⟨5, true⟩ []).trace = [.SQLDisconnect 5] :=
  ⟨(destroy_order mockDriver ⟨5, true⟩ [] rfl (by decide)).1 (by decide),
   congrArg Outcome.trace ((destroy_order failingDriver ⟨5, true⟩ [] rfl (by decide)).2
     (by decide))⟩

/-- C7, counterexample: when the native disconnect reports failure, the
teardown of a dialed connection with an allocated handle stops at the error of
`Disconnect`; the only native call issued is the disconnect, and no
handle-free call is attempted. -/
theorem destroy_skips_free_after_failed_disconnect :
    OdbcConnection.destroy failingDriver ⟨5, true⟩ [] =
      ⟨.error (.diagnostics "OdbcConnection->Disconnect() SQLDisconnect" SQL_HANDLE_DBC 5
        SQL_ERROR), ⟨5, true⟩, [.SQLDisconnect 5]⟩ ∧
    NativeCall.SQLFreeHandle SQL_HANDLE_DBC 5
      ∉ (OdbcConnection.destroy failingDriver ⟨5, true⟩ []).trace := by
  decide

/-! ## C8: the shape of the output of `DescribeColumns` -/

/-- The mapper on an entry the driver's report was stored into, for a type of
the table: the entry built from the report, the tag and the length. -/
theorem mapper_store (x : OdbcColumnDescription) (r : ColumnReport) (tag : MemTag) (len : Nat)
    (h : MapTypeULEN r.sql_data_type r.size = some (tag, len)) :
    SqlDataTypeToCDataType (x.store r) = .ok (describedColumn r tag len) := by
  rw [mapper_eq_tableULEN]
  simp only [tableOutcome, OdbcColumnDescription.store, h]
  rfl

/-- Column ordinals below `2 ^ 16` pass through the conversion to `SQLUSMALLINT`. -/
theorem toSQLUSMALLINT_ordinal (i : Nat) (h : i + 1 < 2 ^ 16) :
    toSQLUSMALLINT ((i + 1 : Nat) : Int) = i + 1 := by
  unfold toSQLUSMALLINT
  omega

/-- The calls for one more column. -/
theorem describeCalls_succ (handle i : Nat) :
    describeCalls handle (i + 1)
      = describeCalls handle i ++ [NativeCall.SQLDescribeCol handle (i + 1) sizeof_name] := by
  simp [describeCalls, List.range_succ]

/-- The loop of `DescribeColumns`, when every describe call succeeds and every
reported type is mapped: it ends normally, has issued the describe calls for
the ordinals up to `N` in order, and has filled the entries from `i` on. -/
theorem describeLoop_ok (d : Driver) (handle : Nat) (t0 : Trace) (N : Nat) (hN : N < 2 ^ 15)
    (expected : Nat → OdbcColumnDescription)
    (hrc : ∀ i, i < N → SQL_SUCCEEDED (d (t0 ++ describeCalls handle i)
      (NativeCall.SQLDescribeCol handle (i + 1) sizeof_name)).rc = true)
    (hmap : ∀ i, i < N → ∀ x : OdbcColumnDescription,
      SqlDataTypeToCDataType (x.store (d (t0 ++ describeCalls handle i)
        (NativeCall.SQLDescribeCol handle (i + 1) sizeof_name)).column) = .ok (expected i)) :
    ∀ (remaining i : Nat) (cols : List OdbcColumnDescription),
      i + remaining = N → cols.length = N →
      ∃ out : List OdbcColumnDescription,
        OdbcStatement.describeLoop d handle remaining i cols (t0 ++ describeCalls handle i)
          = (.ok out, t0 ++ describeCalls handle N) ∧
        out.length = N ∧
        (∀ j, j < i → out[j]? = cols[j]?) ∧
        (∀ j, i ≤ j → j < N → out[j]? = some (expected j)) := by
  intro remaining
  induction remaining with
  | zero =>
    intro i cols hi hlen
    have hiN : i = N := by omega
    subst hiN
    exact ⟨cols, rfl, hlen, fun _ _ => rfl, fun j h1 h2 => absurd h2 (by omega)⟩
  | succ k ih =>
    intro i cols hi hlen
    have hiN : i < N := by omega
    have hord : toSQLUSMALLINT ((i + 1 : Nat) : Int) = i + 1 :=
      toSQLUSMALLINT_ordinal i (by omega)
    obtain ⟨out, hout, hlen2, hlow, hhigh⟩ :=
      ih (i + 1) (cols.set i (expected i)) (by omega) (by simpa using hlen)
    refine ⟨out, ?_, hlen2, ?_, ?_⟩
    · unfold OdbcStatement.describeLoop
      simp only [Nat.cast_add, Nat.cast_one] at hord ⊢
      simp only [hord, hrc i hiN, Bool.not_true, Bool.false_eq_true, if_false, hmap i hiN]
      rw [describeCalls_succ, ← List.append_assoc] at hout
      exact hout
    · intro j hj
      rw [hlow j (by omega), List.getElem?_set_ne (by omega)]
    · intro j h1 h2
      by_cases hji : j = i
      · subst hji
        rw [hlow j (by omega)]
        simp [hlen, hiN]
      · exact hhigh j (by omega) h2

/-- Whether a type code is in the mapping table does not depend on how
"declared size + 1" is computed. -/
theorem MapTypeWith_isSome (plus1 plus2 : Nat → Nat → Nat) (ty : Int) (sz : Nat) :
    (MapTypeWith plus1 ty sz).isSome = (MapTypeWith plus2 ty sz).isSome := by
  unfold MapTypeWith
  by_cases h0 : ty = SQL_SMALLINT
  · rw [if_pos h0, if_pos h0]
  rw [if_neg h0, if_neg h0]
  by_cases h1 : ty = SQL_INTEGER
  · rw [if_pos h1, if_pos h1]
  rw [if_neg h1, if_neg h1]
  by_cases h2 : ty = SQL_BIGINT
  · rw [if_pos h2, if_pos h2]
  rw [if_neg h2, if_neg h2]
  by_cases h3 : ty = SQL_DECIMAL ∨ ty = SQL_NUMERIC
  · rw [if_pos h3, if_pos h3]; rfl
  rw [if_neg h3, if_neg h3]
  by_cases h4 : ty = SQL_DOUBLE ∨ ty = SQL_FLOAT
  · rw [if_pos h4, if_pos h4]
  rw [if_neg h4, if_neg h4]
  by_cases h5 : ty = SQL_REAL
  · rw [if_pos h5, if_pos h5]
  rw [if_neg h5, if_neg h5]
  by_cases h6 : ty = SQL_CHAR ∨ ty = SQL_VARCHAR ∨ ty = SQL_LONGVARCHAR
  · rw [if_pos h6, if_pos h6]; rfl
  rw [if_neg h6, if_neg h6]
  by_cases h7 : ty = SQL_BINARY ∨ ty = SQL_VARBINARY ∨ ty = SQL_LONGVARBINARY
  · rw [if_pos h7, if_pos h7]; rfl
  rw [if_neg h7, if_neg h7]
  by_cases h8 : ty = SQL_TYPE_DATE
  · rw [if_pos h8, if_pos h8]; rfl
  rw [if_neg h8, if_neg h8]
  by_cases h9 : ty = SQL_TYPE_TIME
  · rw [if_pos h9, if_pos h9]; rfl
  rw [if_neg h9, if_neg h9]
  by_cases h10 : ty = SQL_TYPE_TIMESTAMP
  · rw [if_pos h10, if_pos h10]; rfl
  rw [if_neg h10, if_neg h10]

/-- C8: on a prepared statement for which the driver reports `N ≥ 0` result
columns (the `SQLNumResultCols` call succeeds and stores `N`), every native
describe-column call succeeds and every reported SQL type is in the mapping
table, `DescribeColumns` returns normally a sequence of exactly `N` column
descriptions, having issued `SQLNumResultCols` and then `SQLDescribeCol` for
the ordinals `1 .. N` in order, and leaves the statement as it was; for every
index `i < N`, entry `i` holds the name, name length, SQL type, size, decimal
digits and nullability the driver reported for column ordinal `i + 1`, with
the tag and element length the mapping table (and so the column type mapper)
assigns to that SQL type and size. -/
theorem DescribeColumns_shape (d : Driver) (s : OdbcStatement) (t : Trace) (N : Nat)
    (hh : s.handle ≠ SQL_NULL_HSTMT) (hp : s.prepared = true)
    (hnum : SQL_SUCCEEDED (d t (.SQLNumResultCols s.handle)).rc = true)
    (hN : toSQLSMALLINT (d t (.SQLNumResultCols s.handle)).columnCount = (N : Int))
    (hdesc : ∀ i, i < N → SQL_SUCCEEDED (describeResponse d s.handle t i).rc = true)
    (htab : ∀ i, i < N →
      (MapType (describeResponse d s.handle t i).column.sql_data_type
        (describeResponse d s.handle t i).column.size).isSome = true) :
    ∃ cols : List OdbcColumnDescription,
      s.DescribeColumns d t =
        ⟨.ok cols, s, t ++ [.SQLNumResultCols s.handle] ++ describeCalls s.handle N⟩ ∧
      cols.length = N ∧
      ∀ i, i < N → ∃ (tag : MemTag) (len : Nat),
        MapTypeULEN (describeResponse d s.handle t i).column.sql_data_type
          (describeResponse d s.handle t i).column.size = some (tag, len) ∧
        SqlDataTypeToCDataType
          (OdbcColumnDescription.zero.store (describeResponse d s.handle t i).column)
            = .ok (describedColumn (describeResponse d s.handle t i).column tag len) ∧
        cols[i]? = some (describedColumn (describeResponse d s.handle t i).column tag len) := by
  -- the tag and length of the table for each reported column
  have hex : ∀ i, i < N → ∃ (tag : MemTag) (len : Nat),
      MapTypeULEN (describeResponse d s.handle t i).column.sql_data_type
        (describeResponse d s.handle t i).column.size = some (tag, len) := by
    intro i hi
    have h2 : (MapTypeULEN (describeResponse d s.handle t i).column.sql_data_type
        (describeResponse d s.handle t i).column.size).isSome = true := by
      rw [← htab i hi]
      exact MapTypeWith_isSome _ _ _ _
    obtain ⟨⟨tag, len⟩, h3⟩ := Option.isSome_iff_exists.mp h2
    exact ⟨tag, len, h3⟩
  -- the column count stored in `num_result_cols`
  have hNlt : (N : Int) < 2 ^ 15 := by
    rw [← hN]; unfold toSQLSMALLINT; omega
  have hNlt2 : N < 2 ^ 15 := by omega
  have hnn : ¬ ((N : Int) < 0) := by omega
  -- the expected entries
  let expected : Nat → OdbcColumnDescription := fun i =>
    match MapTypeULEN (describeResponse d s.handle t i).column.sql_data_type
        (describeResponse d s.handle t i).column.size with
    | some (tag, len) => describedColumn (describeResponse d s.handle t i).column tag len
    | none => OdbcColumnDescription.zero
  have hexp : ∀ i tag len,
      MapTypeULEN (describeResponse d s.handle t i).column.sql_data_type
        (describeResponse d s.handle t i).column.size = some (tag, len) →
      expected i = describedColumn (describeResponse d s.handle t i).column tag len := by
    intro i tag len h
    simp only [expected, h]
  obtain ⟨out, hout, hlen, -, hhigh⟩ :=
    describeLoop_ok d s.handle (t ++ [NativeCall.SQLNumResultCols s.handle]) N hNlt2 expected
      (fun i hi => hdesc i hi)
      (fun i hi x => by
        obtain ⟨tag, len, h⟩ := hex i hi
        rw [hexp i tag len h]
        exact mapper_store x _ tag len h)
      N 0 (List.replicate N OdbcColumnDescription.zero) (by omega) (by simp)
  refine ⟨out, ?_, hlen, ?_⟩
  · simp only [describeCalls, List.range_zero, List.map_nil, List.append_nil] at hout
    simp only [OdbcStatement.DescribeColumns, OdbcStatement.NumResultCols, if_neg hh, hp,
      Bool.not_true, Bool.false_eq_true, if_false, hnum, hN, hnn, Int.toNat_ofNat, hout]
    rfl
  · intro i hi
    obtain ⟨tag, len, h⟩ := hex i hi
    refine ⟨tag, len, h, mapper_store _ _ tag len h, ?_⟩
    rw [hhigh i (by omega) hi, hexp i tag len h]

/-- C8, witness: the mock driver's two columns, on a prepared statement. -/
theorem DescribeColumns_shape_witness :
    ∃ cols : List OdbcColumnDescription,
      OdbcStatement.DescribeColumns mockDriver ⟨⟨5, true⟩, 1, true, false⟩ [] =
        ⟨.ok cols, ⟨⟨5, true⟩, 1, true, false⟩,
         [] ++ [.SQLNumResultCols 1] ++ describeCalls 1 2⟩ ∧
      cols.length = 2 ∧
      ∀ i, i < 2 → ∃ (tag : MemTag) (len : Nat),
        MapTypeULEN (describeResponse mockDriver 1 [] i).column.sql_data_type
          (describeResponse mockDriver 1 [] i).column.size = some (tag, len) ∧
        SqlDataTypeToCDataType
          (OdbcColumnDescription.zero.store (describeResponse mockDriver 1 [] i).column)
            = .ok (describedColumn (describeResponse mockDriver 1 [] i).column tag len) ∧
        cols[i]? = some (describedColumn (describeResponse mockDriver 1 [] i).column tag len) :=
  DescribeColumns_shape mockDriver ⟨⟨5, true⟩, 1, true, false⟩ [] 2
    (by decide) rfl (by decide) (by decide) (by decide) (by decide)

/-! ## C9: the end-to-end scenario -/

/-- C9: under the mock driver (an integer column `id`, a character column
`name` of declared size 20, a three-row result set delivered in blocks of the
configured row-array size), the sequence `Init`, `Prepare("SELECT id, name
FROM t")`, `DescribeColumns`, `Execute` with `row_array_size = 2`, `Fetch`,
`Fetch`, `Fetch` succeeds at every step; `DescribeColumns` returns two
entries, tagged long with length 4 and character buffer with length 21; the
three `Fetch` calls return 2, 1 and 0. -/
theorem endToEnd_scenario :
    scenarioInit.result = .ok () ∧
    scenarioPrepare.result = .ok () ∧
    scenarioDescribe.result = .ok
      [ { name := "id", name_length := 2, sql_data_type := SQL_INTEGER,
          c_data_type := MemTag.long.code, size := 10, length := 4,
          decimal_digits := 0, nullable := 0 },
        { name := "name", name_length := 4, sql_data_type := SQL_CHAR,
          c_data_type := MemTag.characterBuffer.code, size := 20, length := 21,
          decimal_digits := 0, nullable := 1 } ] ∧
    scenarioExecute.result = .ok () ∧
    scenarioFetch1.result = .ok 2 ∧
    scenarioFetch2.result = .ok 1 ∧
    scenarioFetch3.result = .ok 0 ∧
    scenarioFetch3.state = ⟨⟨5, true⟩, 1, true, true⟩ ∧
    scenarioFetch3.trace =
      [.SQLAllocHandle SQL_HANDLE_STMT 5,
       .SQLPrepare 1 "SELECT id, name FROM t" 22,
       .SQLNumResultCols 1,
       .SQLDescribeCol 1 1 32,
       .SQLDescribeCol 1 2 32,
       .SQLSetStmtAttr 1 SQL_ATTR_ROW_BIND_TYPE (.value SQL_BIND_BY_COLUMN),
       .SQLSetStmtAttr 1 SQL_ATTR_ROW_ARRAY_SIZE (.value 2),
       .SQLExecute 1,
       .SQLSetStmtAttr 1 SQL_ATTR_ROWS_FETCHED_PTR .rowsFetchedPtr,
       .SQLFetchScroll 1 SQL_FETCH_NEXT 0,
       .SQLSetStmtAttr 1 SQL_ATTR_ROWS_FETCHED_PTR .rowsFetchedPtr,
       .SQLFetchScroll 1 SQL_FETCH_NEXT 0,
       .SQLSetStmtAttr 1 SQL_ATTR_ROWS_FETCHED_PTR .rowsFetchedPtr,
       .SQLFetchScroll 1 SQL_FETCH_NEXT 0] := by
  decide

/-! ## C10: preparing again -/

/-- C10 (as amended): `Prepare` is rejected, without a native call, only on a
statement whose handle is not allocated.  On a statement with an allocated
handle, one already prepared included, `Prepare` issues one native prepare
call with the SQL text given; when that call succeeds `Prepare` succeeds and
the statement is prepared, its other fields unchanged; when it fails `Prepare`
raises the driver error and leaves the statement as it was. -/
theorem Prepare_again (d : Driver) (sql_statement : String) (s : OdbcStatement) (t : Trace) :
    (s.handle = SQL_NULL_HSTMT →
      succeeded (s.Prepare d sql_statement t).result = false ∧
      (s.Prepare d sql_statement t).state = s ∧ (s.Prepare d sql_statement t).trace = t) ∧
    (s.handle ≠ SQL_NULL_HSTMT →
      (s.Prepare d sql_statement t).trace
        = t ++ [.SQLPrepare s.handle sql_statement (toSQLSMALLINT sql_statement.utf8ByteSize)] ∧
      (notSuccess (d t (.SQLPrepare s.handle sql_statement
          (toSQLSMALLINT sql_statement.utf8ByteSize))).rc = false →
        (s.Prepare d sql_statement t).result = .ok () ∧
        (s.Prepare d sql_statement t).state = { s with prepared := true }) ∧
      (notSuccess (d t (.SQLPrepare s.handle sql_statement
          (toSQLSMALLINT sql_statement.utf8ByteSize))).rc = true →
        succeeded (s.Prepare d sql_statement t).result = false ∧
        (s.Prepare d sql_statement t).state = s)) := by
  constructor
  · intro hh
    simp [OdbcStatement.Prepare, hh, succeeded]
  · intro hh
    refine ⟨?_, ?_, ?_⟩
    · simp only [OdbcStatement.Prepare, if_neg hh]
      split <;> rfl
    · intro hrc
      simp [OdbcStatement.Prepare, hh, hrc]
    · intro hrc
      simp [OdbcStatement.Prepare, hh, hrc, succeeded]

/-- C10, witness: a second `Prepare`, with another SQL text, on a statement
already prepared, and a `Prepare` on a statement without a handle. -/
theorem Prepare_again_witness :
    (OdbcStatement.Prepare mockDriver "SELECT 2" ⟨⟨5, true⟩, 1, true, false⟩
        [.SQLPrepare 1 "SELECT 1" 8]).trace
      = [.SQLPrepare 1 "SELECT 1" 8, .SQLPrepare 1 "SELECT 2" 8] ∧
    (OdbcStatement.Prepare mockDriver "SELECT 2" (OdbcStatement.new ⟨5, true⟩) []).trace = [] :=
  ⟨((Prepare_again mockDriver "SELECT 2" ⟨⟨5, true⟩, 1, true, false⟩
      [.SQLPrepare 1 "SELECT 1" 8]).2 (by decide)).1,
   ((Prepare_again mockDriver "SELECT 2" (OdbcStatement.new ⟨5, true⟩) []).1 rfl).2.2⟩

/-- C10, counterexample: on a statement initialised and prepared with a first
SQL text, a `Prepare` with another SQL text is not rejected: it issues a
second native prepare call and returns without error. -/
theorem Prepare_twice_accepted :
    OdbcStatement.Prepare mockDriver "SELECT 1" ⟨⟨5, true⟩, 1, false, false⟩
        [.SQLAllocHandle SQL_HANDLE_STMT 5]
      = ⟨.ok (), ⟨⟨5, true⟩, 1, true, false⟩,
         [.SQLAllocHandle SQL_HANDLE_STMT 5, .SQLPrepare 1 "SELECT 1" 8]⟩ ∧
    OdbcStatement.Prepare mockDriver "SELECT 2" ⟨⟨5, true⟩, 1, true, false⟩
        [.SQLAllocHandle SQL_HANDLE_STMT 5, .SQLPrepare 1 "SELECT 1" 8]
      = ⟨.ok (), ⟨⟨5, true⟩, 1, true, false⟩,
         [.SQLAllocHandle SQL_HANDLE_STMT 5, .SQLPrepare 1 "SELECT 1" 8,
          .SQLPrepare 1 "SELECT 2" 8]⟩ := by
  decide

/-! ## C11: the exclusivity operations on a catalog that is not in-memory -/

/-- C11 (as amended): on a catalog constructed from a path other than
`":memory:"`, in every state of its `active_in_memory` flag, the catalog is
not in-memory; `ReleaseInMemoryDatabase` is a no-op (no error, catalog
unchanged); `GetInMemoryDatabase` fails with the internal error "called on a
non-in-memory database" and leaves the catalog, its flag included, unchanged. -/
theorem nonInMemory_operations (path : String) (active : Bool) (hpath : path ≠ ":memory:") :
    (OdbcCatalog.new path).in_memory = false ∧
    OdbcCatalog.ReleaseInMemoryDatabase { OdbcCatalog.new path with active_in_memory := active }
      = (.ok (), { OdbcCatalog.new path with active_in_memory := active }) ∧
    OdbcCatalog.GetInMemoryDatabase { OdbcCatalog.new path with active_in_memory := active }
      = (.error (.internalException "GetInMemoryDatabase() called on a non-in-memory database"),
         { OdbcCatalog.new path with active_in_memory := active }) := by
  have h : (path == ":memory:") = false := by simpa using hpath
  simp [OdbcCatalog.new, OdbcCatalog.ReleaseInMemoryDatabase, OdbcCatalog.GetInMemoryDatabase,
    OdbcCatalog.InMemory, h]

/-- C11, witness: the catalog of the path `"db.sqlite"`, flag clear. -/
theorem nonInMemory_operations_witness :
    (OdbcCatalog.new "db.sqlite").in_memory = false ∧
    OdbcCatalog.ReleaseInMemoryDatabase ⟨"db.sqlite", false, false⟩
      = (.ok (), ⟨"db.sqlite", false, false⟩) ∧
    OdbcCatalog.GetInMemoryDatabase ⟨"db.sqlite", false, false⟩
      = (.error (.internalException "GetInMemoryDatabase() called on a non-in-memory database"),
         ⟨"db.sqlite", false, false⟩) :=
  nonInMemory_operations "db.sqlite" false (by decide)

/-- C11, counterexample: on the catalog of the path `"db.sqlite"`,
`GetInMemoryDatabase` raises an error. -/
theorem nonInMemory_get_raises :
    (OdbcCatalog.new "db.sqlite").in_memory = false ∧
    succeeded (OdbcCatalog.new "db.sqlite").GetInMemoryDatabase.1 = false ∧
    (OdbcCatalog.new "db.sqlite").GetInMemoryDatabase.1
      = .error (.internalException "GetInMemoryDatabase() called on a non-in-memory database") := by
  decide

/-! ## C12: the lifecycle invariant of a statement -/

/-- The member `SetAttribute` assigns to no field. -/
theorem SetAttribute_state (d : Driver) (attr : Int) (value : AttrValue) (s : OdbcStatement)
    (t : Trace) : (s.SetAttribute d attr value t).state = s := by
  unfold OdbcStatement.SetAttribute
  dsimp only
  split
  · rfl
  · split <;> rfl

/-- The member `BindColumn` assigns to no field. -/
theorem BindColumn_state (d : Driver) (n : Nat) (c : Int) (b l i : Nat) (s : OdbcStatement)
    (t : Trace) : (s.BindColumn d n c b l i t).state = s := by
  unfold OdbcStatement.BindColumn
  dsimp only
  split
  · rfl
  · split <;> rfl

/-- The member `NumResultCols` assigns to no field. -/
theorem NumResultCols_state (d : Driver) (s : OdbcStatement) (t : Trace) :
    (s.NumResultCols d t).state = s := by
  unfold OdbcStatement.NumResultCols
  dsimp only
  split
  · rfl
  · split
    · rfl
    · split <;> rfl

/-- The member `DescribeColumns` assigns to no field. -/
theorem DescribeColumns_state (d : Driver) (s : OdbcStatement) (t : Trace) :
    (s.DescribeColumns d t).state = s := by
  unfold OdbcStatement.DescribeColumns
  dsimp only
  split
  · exact NumResultCols_state d s t
  · split <;> exact NumResultCols_state d s t

/-- The member `Fetch` assigns to no field. -/
theorem Fetch_state (d : Driver) (s : OdbcStatement) (t : Trace) :
    (s.Fetch d t).state = s := by
  unfold OdbcStatement.Fetch
  dsimp only
  split
  · rfl
  · split
    · rfl
    · split
      · rfl
      · split
        · exact SetAttribute_state d _ _ s t
        · split <;> exact SetAttribute_state d _ _ s t

/-- The member `Init` assigns to the handle only, and only when it was null. -/
theorem Init_state (d : Driver) (s : OdbcStatement) (t : Trace) :
    (s.Init d t).state = s ∨
    (s.handle = SQL_NULL_HSTMT ∧ ∃ h : Nat, (s.Init d t).state = { s with handle := h }) := by
  unfold OdbcStatement.Init
  dsimp only
  split
  · exact Or.inl rfl
  · rename_i hh
    refine Or.inr ⟨by simpa using hh, (d t (.SQLAllocHandle SQL_HANDLE_STMT s.conn.Handle)).handleOut,
      ?_⟩
    split <;> rfl

/-- The member `Prepare` either throws and assigns to no field, or returns
normally on an allocated handle having set `prepared`. -/
theorem Prepare_state (d : Driver) (sql_statement : String) (s : OdbcStatement) (t : Trace) :
    (succeeded (s.Prepare d sql_statement t).result = false ∧
      (s.Prepare d sql_statement t).state = s) ∨
    (s.handle ≠ SQL_NULL_HSTMT ∧ succeeded (s.Prepare d sql_statement t).result = true ∧
      (s.Prepare d sql_statement t).state = { s with prepared := true }) := by
  unfold OdbcStatement.Prepare
  dsimp only
  split
  · exact Or.inl ⟨rfl, rfl⟩
  · rename_i hh
    split
    · exact Or.inl ⟨rfl, rfl⟩
    · exact Or.inr ⟨hh, rfl, rfl⟩

/-- The member `Execute` either throws and assigns to no field, or returns
normally on a prepared statement with an allocated handle having set
`executing`. -/
theorem Execute_state (d : Driver) (opts : OdbcStatementOptions) (s : OdbcStatement)
    (t : Trace) :
    (succeeded (s.Execute d opts t).result = false ∧ (s.Execute d opts t).state = s) ∨
    (s.handle ≠ SQL_NULL_HSTMT ∧ s.prepared = true ∧
      succeeded (s.Execute d opts t).result = true ∧
      (s.Execute d opts t).state = { s with executing := true }) := by
  unfold OdbcStatement.Execute
  dsimp only
  split
  · exact Or.inl ⟨rfl, rfl⟩
  · rename_i hh
    split
    · exact Or.inl ⟨rfl, rfl⟩
    · rename_i hp
      split
      · exact Or.inl ⟨rfl, rfl⟩
      · split
        · exact Or.inl ⟨rfl, SetAttribute_state d _ _ s t⟩
        · have h1 := SetAttribute_state d SQL_ATTR_ROW_BIND_TYPE
            (.value SQL_BIND_BY_COLUMN) s t
          split
          · refine Or.inl ⟨rfl, ?_⟩
            rw [SetAttribute_state, h1]
          · have h2 : (OdbcStatement.SetAttribute d SQL_ATTR_ROW_ARRAY_SIZE
                (.value opts.row_array_size)
                (s.SetAttribute d SQL_ATTR_ROW_BIND_TYPE (.value SQL_BIND_BY_COLUMN) t).state
                (s.SetAttribute d SQL_ATTR_ROW_BIND_TYPE (.value SQL_BIND_BY_COLUMN)
                  t).trace).state = s := by
              rw [SetAttribute_state, h1]
            split
            · exact Or.inl ⟨rfl, h2⟩
            · refine Or.inr ⟨hh, by simpa using hp, rfl, ?_⟩
              simp only [h2]

/-- One call on a statement, whatever the call and the driver: it keeps the
lifecycle invariant, clears neither flag, and leaves both flags as they were
when it throws. -/
theorem call_step (d : Driver) (s : OdbcStatement) (t : Trace) (k : StatementCall) :
    (s.lifecycleOk → (s.call d t k).state.lifecycleOk) ∧
    (s.prepared = true → (s.call d t k).state.prepared = true) ∧
    (s.executing = true → (s.call d t k).state.executing = true) ∧
    ((s.call d t k).ok = false →
      (s.call d t k).state.prepared = s.prepared ∧
      (s.call d t k).state.executing = s.executing) := by
  cases k with
  | Init =>
    simp only [OdbcStatement.call, Outcome.effect]
    rcases Init_state d s t with h | ⟨h0, h, hs⟩
    · rw [h]; exact ⟨id, id, id, fun _ => ⟨rfl, rfl⟩⟩
    · rw [hs]
      refine ⟨fun inv => ?_, id, id, fun _ => ⟨rfl, rfl⟩⟩
      have hp : s.prepared = false := by
        cases hps : s.prepared
        · rfl
        · exact absurd h0 (inv.2 hps)
      have he : s.executing = false := by
        cases hes : s.executing
        · rfl
        · have := inv.1 hes
          rw [hp] at this
          exact absurd this (by decide)
      constructor
      · intro hx; simp only [he] at hx; exact absurd hx (by decide)
      · intro hx; simp only [hp] at hx; exact absurd hx (by decide)
  | Prepare sql_statement =>
    simp only [OdbcStatement.call, Outcome.effect]
    rcases Prepare_state d sql_statement s t with ⟨_, h⟩ | ⟨hh, hok, h⟩
    · rw [h]; exact ⟨id, id, id, fun _ => ⟨rfl, rfl⟩⟩
    · rw [h, hok]
      exact ⟨fun _ => ⟨fun _ => rfl, fun _ => hh⟩, fun _ => rfl, id,
        fun hx => absurd hx (by decide)⟩
  | SetAttribute attr value =>
    simp only [OdbcStatement.call, Outcome.effect]
    rw [SetAttribute_state]
    exact ⟨id, id, id, fun _ => ⟨rfl, rfl⟩⟩
  | BindColumn n c b l i =>
    simp only [OdbcStatement.call, Outcome.effect]
    rw [BindColumn_state]
    exact ⟨id, id, id, fun _ => ⟨rfl, rfl⟩⟩
  | NumResultCols =>
    simp only [OdbcStatement.call, Outcome.effect]
    rw [NumResultCols_state]
    exact ⟨id, id, id, fun _ => ⟨rfl, rfl⟩⟩
  | DescribeColumns =>
    simp only [OdbcStatement.call, Outcome.effect]
    rw [DescribeColumns_state]
    exact ⟨id, id, id, fun _ => ⟨rfl, rfl⟩⟩
  | Execute opts =>
    simp only [OdbcStatement.call, Outcome.effect]
    rcases Execute_state d opts s t with ⟨_, h⟩ | ⟨hh, hp, hok, h⟩
    · rw [h]; exact ⟨id, id, id, fun _ => ⟨rfl, rfl⟩⟩
    · rw [h, hok]
      exact ⟨fun _ => ⟨fun _ => hp, fun _ => hh⟩, id, fun _ => rfl,
        fun hx => absurd hx (by decide)⟩
  | Fetch =>
    simp only [OdbcStatement.call, Outcome.effect]
    rw [Fetch_state]
    exact ⟨id, id, id, fun _ => ⟨rfl, rfl⟩⟩

/-- A sequence of calls keeps the lifecycle invariant. -/
theorem run_lifecycleOk (d : Driver) (calls : List StatementCall) :
    ∀ (s : OdbcStatement) (t : Trace), s.lifecycleOk →
      (OdbcStatement.run d s t calls).1.lifecycleOk := by
  induction calls with
  | nil => intro s t h; exact h
  | cons k ks ih =>
    intro s t h
    exact ih _ _ ((call_step d s t k).1 h)

/-- C12: in every state reached from a freshly constructed statement by a
sequence of `Init`, `Prepare`, `SetAttribute`, `BindColumn`, `NumResultCols`,
`DescribeColumns`, `Execute` and `Fetch` calls, each returning or throwing,
under any driver and after any earlier native calls, executing implies
prepared and prepared implies that the handle is allocated; and on every
statement, each of these calls keeps a set prepared flag set, keeps a set
executing flag set, and leaves both flags as they were when it throws. -/
theorem statement_lifecycle (d : Driver) (conn : OdbcConnection) (t0 : Trace)
    (calls : List StatementCall) (s : OdbcStatement) (t : Trace) (k : StatementCall) :
    ((OdbcStatement.run d (OdbcStatement.new conn) t0 calls).1.executing = true →
      (OdbcStatement.run d (OdbcStatement.new conn) t0 calls).1.prepared = true) ∧
    ((OdbcStatement.run d (OdbcStatement.new conn) t0 calls).1.prepared = true →
      (OdbcStatement.run d (OdbcStatement.new conn) t0 calls).1.handle ≠ SQL_NULL_HSTMT) ∧
    (s.prepared = true → (s.call d t k).state.prepared = true) ∧
    (s.executing = true → (s.call d t k).state.executing = true) ∧
    ((s.call d t k).ok = false →
      (s.call d t k).state.prepared = s.prepared ∧
      (s.call d t k).state.executing = s.executing) := by
  have h0 : (OdbcStatement.new conn).lifecycleOk := by
    constructor <;> intro h <;> exact absurd h (by simp [OdbcStatement.new])
  have hrun := run_lifecycleOk d calls (OdbcStatement.new conn) t0 h0
  exact ⟨hrun.1, hrun.2, (call_step d s t k).2⟩

/-- C12, witness: under the mock driver, the sequence `Fetch` (throws),
`Init`, `Init` (throws), `Prepare`, `Execute`, `Execute` (throws), `Fetch`
ends in a statement that is executing, hence prepared with its handle
allocated; under the failing driver a `Prepare` on a prepared statement throws
and leaves both flags. -/
theorem statement_lifecycle_witness :
    (OdbcStatement.run mockDriver (OdbcStatement.new ⟨5, true⟩) []
      [.Fetch, .Init, .Init, .Prepare "SELECT 1", .Execute ⟨2⟩, .Execute ⟨2⟩, .Fetch]).1
        = ⟨⟨5, true⟩, 1, true, true⟩ ∧
    (OdbcStatement.run mockDriver (OdbcStatement.new ⟨5, true⟩) []
      [.Fetch, .Init, .Init, .Prepare "SELECT 1", .Execute ⟨2⟩, .Execute ⟨2⟩, .Fetch]).1.prepared
        = true ∧
    (OdbcStatement.call failingDriver ⟨⟨5, true⟩, 1, true, true⟩ [] (.Prepare "SELECT 2")).state.prepared
        = true ∧
    (OdbcStatement.call failingDriver ⟨⟨5, true⟩, 1, true, true⟩ [] (.Prepare "SELECT 2")).state.executing
        = true :=
  ⟨by decide,
   (statement_lifecycle mockDriver ⟨5, true⟩ []
      [.Fetch, .Init, .Init, .Prepare "SELECT 1", .Execute ⟨2⟩, .Execute ⟨2⟩, .Fetch]
      ⟨⟨5, true⟩, 1, true, true⟩ [] (.Prepare "SELECT 2")).1 (by decide),
   ((statement_lifecycle failingDriver ⟨5, true⟩ [] []
      ⟨⟨5, true⟩, 1, true, true⟩ [] (.Prepare "SELECT 2")).2.2.2.2 (by decide)).1,
   ((statement_lifecycle failingDriver ⟨5, true⟩ [] []
      ⟨⟨5, true⟩, 1, true, true⟩ [] (.Prepare "SELECT 2")).2.2.2.2 (by decide)).2⟩

end OdbcScanner
